import Mathlib

/-!
Shallow embedding of the telemetry ingestion core of the sms_web repository
(src/src/messageHandler.js, src/src/constants.js, src/src/aesDecrypt.js,
src/src/pushService.js, src/src/database.js), together with proofs settling
the frozen claims about it.

Where a source file contains two revisions separated by the repository's
document separator, the second (current) revision — the one the claim line
numbers refer to — is the one embedded here.
-/

namespace SmsWeb

/-! ## Calendar rendering

JavaScript `Date` getters over the proleptic Gregorian calendar.  `renderUTC ms`
is the string produced by the source's template
`${y}-${pad(mo)}-${pad(d)} ${pad(h)}:${pad(mi)}:${pad(s)}` when the getters are
read at UTC for the instant `ms` (milliseconds since the Unix epoch).
`civilFromDays` is the standard civil-from-days conversion.
-/

/-- The source's `pad = n => n < 10 ? '0' + n : n`. -/
def pad2 (n : Int) : String := if n < 10 then "0" ++ toString n else toString n

/-- Gregorian (year, month, day) of a day count relative to 1970-01-01. -/
def civilFromDays (z0 : Int) : Int × Int × Int :=
  let z := z0 + 719468
  let era : Int := z.ediv 146097
  let doe : Int := z - era * 146097
  let yoe : Int := (doe - doe.ediv 1460 + doe.ediv 36524 - doe.ediv 146096).ediv 365
  let doy : Int := doe - (365 * yoe + yoe.ediv 4 - yoe.ediv 100)
  let mp : Int := (5 * doy + 2).ediv 153
  let d : Int := doy - (153 * mp + 2).ediv 5 + 1
  let m : Int := mp + (if mp < 10 then 3 else -9)
  (yoe + era * 400 + (if m ≤ 2 then 1 else 0), m, d)

/-- `YYYY-MM-DD HH:mm:ss` rendering of an epoch instant, read with UTC getters. -/
def renderUTC (ms : Int) : String :=
  let totalSec := ms.ediv 1000
  let days := totalSec.ediv 86400
  let secOfDay := totalSec.emod 86400
  let c := civilFromDays days
  let hh := secOfDay.ediv 3600
  let mm := (secOfDay.emod 3600).ediv 60
  let ss := secOfDay.emod 60
  toString c.1 ++ "-" ++ pad2 c.2.1 ++ "-" ++ pad2 c.2.2 ++ " " ++
    pad2 hh ++ ":" ++ pad2 mm ++ ":" ++ pad2 ss

/-- Largest epoch-milliseconds magnitude a JS `Date` can hold; beyond it
`date.getTime()` is NaN. -/
def maxJsDateMs : Nat := 8640000000000000

/-- SQLite BINARY collation on TEXT (memcmp of the UTF-8 bytes); on the
code-point lists this is plain lexicographic comparison of code points. -/
def charListLt : List Char → List Char → Bool
  | [], [] => false
  | [], _ :: _ => true
  | _ :: _, [] => false
  | a :: as, b :: bs =>
    if a.toNat < b.toNat then true
    else if a.toNat = b.toNat then charListLt as bs
    else false

/-- `a < b` under SQLite's default TEXT comparison. -/
def sqliteTextLt (a b : String) : Bool := charListLt a.toList b.toList

/-! ## Host environment and time normalization -/

/-- A raw `time`-typed JS value reaching `formatTime`: a number, a string, or a
`Date` object (the offline sweeper passes one). `undefined` is `Option.none` at
the use sites. -/
inductive RawTime where
  | rnum (n : Int)
  | rstr (s : String)
  | rdate (ms : Int)
deriving Repr, DecidableEq

/-- The ambient JS host: current instant, the host timezone offset in minutes as
returned by `Date.prototype.getTimezoneOffset` (fixed-offset host zone), the
string `datetime('now','localtime')` yields for SQLite DEFAULT columns, and the
host's `new Date(string)` parser (epoch ms, or none when it yields NaN). -/
structure JsEnv where
  nowMs : Int
  tzOffsetMin : Int
  localNow : String
  parseDate : String → Option Int

/-- JS truthiness of an optional raw time value (`undefined`, `0` and `""` are
falsy; a `Date` object is always truthy). -/
def rawTruthy : Option RawTime → Bool
  | none => false
  | some (.rnum n) => n != 0
  | some (.rstr s) => s != ""
  | some (.rdate _) => true

/-- `a || b` over raw time values. -/
def jsOrTime (a b : Option RawTime) : Option RawTime :=
  if rawTruthy a then a else b

/-- `MessageHandler.formatTime` (src/src/messageHandler.js:613-634).
Selects the instant exactly as the source does (falsy input → `new Date()`;
numbers below 10,000,000,000 are seconds, else milliseconds; strings go through
`new Date(string)`; a NaN `getTime()` falls back to now), then applies
`utc = t + tzOffset*60000`, `beijing = utc + 8*3600000` and renders `beijing`
through the host-local getters: the local wall clock of instant `x` is the UTC
rendering of `x - tzOffset*60000`. -/
def formatTime (env : JsEnv) (time : Option RawTime) : String :=
  let t : Int :=
    match time with
    | none => env.nowMs
    | some (.rnum n) =>
      if n = 0 then env.nowMs
      else
        let m := if n < 10000000000 then n * 1000 else n
        if m.natAbs ≤ maxJsDateMs then m else env.nowMs
    | some (.rstr s) =>
      if s = "" then env.nowMs
      else
        match env.parseDate s with
        | some m => if m.natAbs ≤ maxJsDateMs then m else env.nowMs
        | none => env.nowMs
    | some (.rdate ms) =>
      if ms.natAbs ≤ maxJsDateMs then ms else env.nowMs
  let utc := t + env.tzOffsetMin * 60000
  let beijing := utc + 8 * 3600000
  renderUTC (beijing - env.tzOffsetMin * 60000)

/-- `PushService.getBeijingTime` (src/src/pushService.js:332-340): same
conversion applied to the current instant. -/
def getBeijingTime (env : JsEnv) : String :=
  let utc := env.nowMs + env.tzOffsetMin * 60000
  let beijing := utc + 8 * 3600000
  renderUTC (beijing - env.tzOffsetMin * 60000)

/-! ## Event classifier (src/src/constants.js) -/

/-- The static `MESSAGE_TYPES` table: code ↦ (name, category). -/
def MESSAGE_TYPES : List (Int × String × String) := [
  (100, "WIFI已联网", "network"),
  (101, "卡槽1已联网", "network"),
  (102, "卡槽2已联网", "network"),
  (202, "SIM卡基站注册中", "sim"),
  (203, "SIM卡ID已获取", "sim"),
  (204, "SIM卡已就绪", "sim"),
  (205, "SIM卡已弹出", "sim"),
  (209, "SIM卡异常", "sim"),
  (301, "通讯模组错误", "module"),
  (401, "命令已收到", "command"),
  (402, "命令已处理", "command"),
  (501, "新短信", "sms"),
  (502, "短信外发成功", "sms"),
  (601, "来电振铃", "call"),
  (602, "来电接通", "call"),
  (603, "对方挂断来电", "call"),
  (620, "去电拨号中", "call"),
  (621, "去电对方振铃中", "call"),
  (622, "去电已接通", "call"),
  (623, "去电已挂断", "call"),
  (641, "通话中本地按键", "call"),
  (642, "通话中远程按键", "call"),
  (681, "外呼拨号成功", "call_ctrl"),
  (682, "外呼拨号失败", "call_ctrl"),
  (684, "接听成功", "call_ctrl"),
  (685, "接听失败", "call_ctrl"),
  (687, "TTS播放成功", "call_ctrl"),
  (688, "TTS播放失败", "call_ctrl"),
  (689, "TTS播放结束", "call_ctrl"),
  (998, "PING心跳", "system")]

/-- `getMessageTypeName`: table name, or the synthesized `未知消息(<code>)`. -/
def getMessageTypeName (t : Int) : String :=
  match MESSAGE_TYPES.find? (fun e => e.1 == t) with
  | some e => e.2.1
  | none => "未知消息(" ++ toString t ++ ")"

/-- `getMessageCategory`: table category, or `unknown`. -/
def getMessageCategory (t : Int) : String :=
  match MESSAGE_TYPES.find? (fun e => e.1 == t) with
  | some e => e.2.2
  | none => "unknown"

/-- `DEVICE_STATUS.ONLINE`. -/
def DEVICE_STATUS_ONLINE : String := "online"
/-- `DEVICE_STATUS.OFFLINE`. -/
def DEVICE_STATUS_OFFLINE : String := "offline"
/-- `SIM_STATUS` constants. -/
def SIM_STATUS_READY : String := "ready"
def SIM_STATUS_REGISTERING : String := "registering"
def SIM_STATUS_ERROR : String := "error"
def SIM_STATUS_REMOVED : String := "removed"
def SIM_STATUS_UNKNOWN : String := "unknown"

/-! ## Data model (src/src/database.js, second revision)

Rows carry the columns of the SQLite schema.  Structure defaults are the
schema's `DEFAULT` clauses; `created_at`/`updated_at` columns that an INSERT
leaves unspecified receive SQLite's `datetime('now','localtime')`, i.e.
`JsEnv.localNow`. -/

structure Device where
  devId : String
  name : String := ""
  hwVer : String := ""
  lastIp : String := ""
  lastSsid : String := ""
  lastDbm : Int := 0
  status : String := "offline"
  lastSeenAt : Option String := none
  createdAt : String
  updatedAt : String
deriving Repr, DecidableEq

structure SimCard where
  devId : String
  slot : Int
  iccid : String := ""
  imsi : String := ""
  msisdn : String := ""
  operatorName : String := ""
  dbm : Int := 0
  status : String := "unknown"
  plmn : String := ""
  updatedAt : String
deriving Repr, DecidableEq

/-- One inbound event record, after transport decoding: the flat JS object
`handleMessage` receives.  `Option.none` is an absent (`undefined`) field. -/
structure EventData where
  devId : Option String := none
  type : Option Int := none
  slot : Option Int := none
  ip : Option String := none
  ssid : Option String := none
  dbm : Option Int := none
  hwVer : Option String := none
  slotInfo : Option String := none
  iccId : Option String := none
  iccid : Option String := none
  imsi : Option String := none
  msIsdn : Option String := none
  msisdn : Option String := none
  plmn : Option String := none
  phoneNum : Option String := none
  phNum : Option String := none
  content : Option String := none
  smsBd : Option String := none
  netCh : Option Int := none
  smsTs : Option RawTime := none
  time : Option RawTime := none
  telStartTs : Option Int := none
  telEndTs : Option Int := none
deriving Repr, DecidableEq

/-- `messages` audit row.  `raw_data` holds `JSON.stringify(data)`; the model
stores the event record itself (serialization is injective and no claim
inspects the serialized text). -/
structure MessageRow where
  devId : String
  type : Int
  typeName : String
  rawData : EventData
  createdAt : String
deriving Repr, DecidableEq

structure SmsRecord where
  devId : String
  slot : Int
  msisdn : String := ""
  phoneNum : String
  content : String
  smsTime : String
  direction : String := "in"
  createdAt : String
deriving Repr, DecidableEq

structure CallRecord where
  devId : String
  slot : Int
  msisdn : String := ""
  phoneNum : String
  msgType : Int
  callType : String
  startTime : String
  duration : Int := 0
  createdAt : String
deriving Repr, DecidableEq

/-- The in-memory relational store (the five tables the reconciler writes). -/
structure DB where
  devices : List Device := []
  simCards : List SimCard := []
  messages : List MessageRow := []
  smsRecords : List SmsRecord := []
  callRecords : List CallRecord := []
deriving Repr, DecidableEq

/-! ## JS helpers: `||` chains and truthiness -/

/-- `a || b` where `a` is a possibly-absent string (empty string is falsy). -/
def jsOrStr (a : Option String) (b : String) : String :=
  match a with
  | some s => if s = "" then b else s
  | none => b

/-- `a || b` where `a` is a possibly-absent number (0 is falsy). -/
def jsOrInt (a : Option Int) (b : Int) : Int :=
  match a with
  | some n => if n = 0 then b else n
  | none => b

/-- `undefined`-aware display of a value interpolated into a template string. -/
def jsShowOptInt (a : Option Int) : String :=
  match a with
  | some n => toString n
  | none => "undefined"

/-! ## Notification calls recorded by the handlers

`pushService.push(eventType, payload)` invocations are collected as data; the
dispatcher itself (src/src/pushService.js) is embedded separately below. -/

structure PushCall where
  eventType : String
  devId : Option String := none
  msgType : Option Int := none
  duration : Option Int := none
  status : String := ""
  detail : String := ""
  ip : String := ""
  phoneNum : String := ""
  content : String := ""
  callType : String := ""
  direction : String := ""
  iccid : String := ""
  imsi : String := ""
  msisdn : String := ""
  slot : Option Int := none
  netChannel : Option Int := none
deriving Repr, DecidableEq

/-- A handler's result: the JS return value `{success, error?}` plus the store
it leaves behind and the notification pushes it issued. -/
structure HOut where
  success : Bool
  error : Option String := none
  db : DB
  pushes : List PushCall := []
deriving Repr, DecidableEq

/-! ## State reconciler (src/src/messageHandler.js, second revision) -/

/-- `WHERE dev_id = ?` with a possibly-`undefined` bound value: binding
`undefined`/`null` matches no row. -/
def devKeyMatches (k : Option String) (d : Device) : Bool :=
  match k with
  | some s => d.devId == s
  | none => false

/-- `WHERE dev_id = ? AND slot = ?` over `sim_cards`. -/
def simKeyMatches (devId : Option String) (slot : Option Int) (r : SimCard) : Bool :=
  match devId, slot with
  | some d, some s => r.devId == d && r.slot == s
  | _, _ => false

/-- Number of `devices` rows with the given `dev_id`. -/
def countDev (db : DB) (devId : String) : Nat :=
  (db.devices.filter (fun d => d.devId == devId)).length

/-- Number of `sim_cards` rows with the given `(dev_id, slot)`. -/
def countSim (db : DB) (devId : String) (slot : Int) : Nat :=
  (db.simCards.filter (fun r => r.devId == devId && r.slot == slot)).length

/-- `MessageHandler.recordMessage` (second revision): a no-op unless
`config.log.saveRawMessages`; otherwise appends one `messages` row with
`created_at = this.formatTime()`. -/
def recordMessage (env : JsEnv) (saveRaw : Bool) (devId : String) (t : Int)
    (data : EventData) (db : DB) : DB :=
  if saveRaw then
    let now := formatTime env none
    { db with messages := db.messages ++
        [{ devId := devId, type := t, typeName := getMessageTypeName t,
           rawData := data, createdAt := now }] }
  else db

/-- `MessageHandler.ensureDeviceExists`: SELECT by `dev_id`, INSERT a fresh
online row when absent (the UNIQUE constraint cannot fire on this path since
the SELECT found nothing). -/
def ensureDeviceExists (env : JsEnv) (devId : Option String) (db : DB) : DB :=
  match db.devices.find? (devKeyMatches devId) with
  | some _ => db
  | none =>
    match devId with
    | some s =>
      let now := formatTime env none
      { db with devices := db.devices ++
          [{ devId := s, status := DEVICE_STATUS_ONLINE, lastSeenAt := some now,
             createdAt := now, updatedAt := now }] }
    | none => db

/-- `MessageHandler.updateDeviceLastSeen`. -/
def updateDeviceLastSeen (env : JsEnv) (devId : Option String) (db : DB) : DB :=
  let now := formatTime env none
  { db with devices := db.devices.map (fun d =>
      if devKeyMatches devId d then
        { d with status := DEVICE_STATUS_ONLINE, lastSeenAt := some now,
                 updatedAt := now }
      else d) }

/-- `MessageHandler.handleNetworkMessage` (types 100-102): device upsert, then
a `device_status` push.  (`updateSlotInfo` is an empty function in the source
and changes no state.) -/
def handleNetworkMessage (env : JsEnv) (t : Int) (data : EventData) (db : DB) : HOut :=
  let devId := data.devId
  let existingDevice := db.devices.find? (devKeyMatches devId)
  let now := formatTime env none
  let db1 : DB :=
    match existingDevice with
    | some _ =>
      { db with devices := db.devices.map (fun d =>
          if devKeyMatches devId d then
            { d with lastIp := jsOrStr data.ip "", lastSsid := jsOrStr data.ssid "",
                     lastDbm := jsOrInt data.dbm 0, hwVer := jsOrStr data.hwVer "",
                     status := DEVICE_STATUS_ONLINE, lastSeenAt := some now,
                     updatedAt := now }
          else d) }
    | none =>
      match devId with
      | some s =>
        { db with devices := db.devices ++
            [{ devId := s, lastIp := jsOrStr data.ip "", lastSsid := jsOrStr data.ssid "",
               lastDbm := jsOrInt data.dbm 0, hwVer := jsOrStr data.hwVer "",
               status := DEVICE_STATUS_ONLINE, lastSeenAt := some now,
               createdAt := now, updatedAt := now }] }
      | none => db  -- dev_id NOT NULL: the INSERT fails, dbWrapper returns zero-effect
  { success := true, db := db1,
    pushes := [{ eventType := "device_status", devId := devId,
                 status := getMessageTypeName t, ip := jsOrStr data.ip "unknown" }] }

/-- The `switch (type)` assigning the SIM status (202 registering, 203/204
ready, 205 removed, 209 error, otherwise the `unknown` initial value). -/
def simStatusFor (t : Int) : String :=
  if t = 202 then SIM_STATUS_REGISTERING
  else if t = 203 then SIM_STATUS_READY
  else if t = 204 then SIM_STATUS_READY
  else if t = 205 then SIM_STATUS_REMOVED
  else if t = 209 then SIM_STATUS_ERROR
  else SIM_STATUS_UNKNOWN

/-- `COALESCE(NULLIF(?, ''), col)` with the bound parameter `p`. -/
def nonBlank (p old : String) : String := if p = "" then old else p

/-- The `UPDATE sim_cards SET ... WHERE dev_id = ? AND slot = ?` row rewrite:
merge-by-non-blank for the string payload fields, `COALESCE(?, dbm)` for the
signal level (bound as `dbm ?? null`), unconditional status/updated_at. -/
def simMergeRow (data : EventData) (status now : String) (r : SimCard) : SimCard :=
  { r with
    iccid := nonBlank (jsOrStr data.iccId "") r.iccid,
    imsi := nonBlank (jsOrStr data.imsi "") r.imsi,
    msisdn := nonBlank (jsOrStr data.msIsdn "") r.msisdn,
    dbm := (match data.dbm with | some v => v | none => r.dbm),
    plmn := nonBlank (jsOrStr data.plmn "") r.plmn,
    status := status,
    updatedAt := now }

/-- `MessageHandler.handleSimMessage` (types 202-209): ensure the device,
merge-upsert the `sim_cards` row keyed on `(dev_id, slot)`, refresh the
device's last-seen, and push `device_status` except for 202/203. -/
def handleSimMessage (env : JsEnv) (t : Int) (data : EventData) (db : DB) : HOut :=
  let db1 := ensureDeviceExists env data.devId db
  let status := simStatusFor t
  let existingSim := db1.simCards.find? (simKeyMatches data.devId data.slot)
  let now := formatTime env none
  let db2 : DB :=
    match existingSim with
    | some _ =>
      { db1 with simCards := db1.simCards.map (fun r =>
          if simKeyMatches data.devId data.slot r then simMergeRow data status now r
          else r) }
    | none =>
      match data.devId, data.slot with
      | some d, some s =>
        { db1 with simCards := db1.simCards ++
            [{ devId := d, slot := s, iccid := jsOrStr data.iccId "",
               imsi := jsOrStr data.imsi "", msisdn := jsOrStr data.msIsdn "",
               dbm := jsOrInt data.dbm 0, plmn := jsOrStr data.plmn "",
               status := status, updatedAt := now }] }
      | _, _ => db1  -- dev_id/slot NOT NULL: the INSERT fails, zero-effect
  let db3 := updateDeviceLastSeen env data.devId db2
  let pushes :=
    if t ≠ 202 ∧ t ≠ 203 then
      [{ eventType := "device_status", devId := data.devId,
         status := getMessageTypeName t,
         detail := "卡槽" ++ jsShowOptInt data.slot ++ "状态变更: " ++ getMessageTypeName t }]
    else []
  { success := true, db := db3, pushes := pushes }

/-- `MessageHandler.handleSmsMessage` (types 501-502): field-alias resolution,
time normalization, one `sms_records` append, one `sms` push. -/
def handleSmsMessage (env : JsEnv) (t : Int) (data : EventData) (db : DB) : HOut :=
  let devId := data.devId
  let slot := data.slot
  let phoneNumber := jsOrStr data.phoneNum (jsOrStr data.phNum (jsOrStr data.msIsdn (jsOrStr data.msisdn "")))
  let content := jsOrStr data.content (jsOrStr data.smsBd "")
  let iccid := jsOrStr data.iccId (jsOrStr data.iccid "")
  let imsi := jsOrStr data.imsi ""
  let msisdn := jsOrStr data.msIsdn (jsOrStr data.msisdn "")
  let smsTime := formatTime env (jsOrTime data.smsTs data.time)
  let direction := if t = 502 then "out" else "in"
  let db1 : DB :=
    match devId, slot with
    | some d, some s =>
      { db with smsRecords := db.smsRecords ++
          [{ devId := d, slot := s,
             phoneNum := if phoneNumber = "" then "unknown" else phoneNumber,
             content := content, smsTime := smsTime, direction := direction,
             createdAt := env.localNow }] }
    | _, _ => db  -- dev_id/slot NOT NULL: INSERT fails, caught and logged
  { success := true, db := db1,
    pushes := [{ eventType := "sms", devId := devId, phoneNum := phoneNumber,
                 content := content, slot := slot, iccid := iccid, imsi := imsi,
                 msisdn := msisdn, netChannel := data.netCh, direction := direction }] }

/-- `MessageHandler.handleCallMessage` (types 601-642): one `call_records`
append; a `call` push only on ring (601). -/
def handleCallMessage (env : JsEnv) (t : Int) (data : EventData) (db : DB) : HOut :=
  let devId := data.devId
  let slot := data.slot
  let phoneNumber := jsOrStr data.phoneNum (jsOrStr data.phNum (jsOrStr data.msIsdn (jsOrStr data.msisdn "")))
  let callType := getMessageTypeName t
  let startTime := formatTime env
    (match data.telStartTs with
     | some n => if n ≠ 0 then some (RawTime.rnum n) else data.time
     | none => data.time)
  let duration : Int :=
    match data.telStartTs, data.telEndTs with
    | some a, some b => if a ≠ 0 ∧ b ≠ 0 ∧ a < b then b - a else 0
    | _, _ => 0
  let db1 : DB :=
    match devId, slot with
    | some d, some s =>
      { db with callRecords := db.callRecords ++
          [{ devId := d, slot := s,
             phoneNum := if phoneNumber = "" then "unknown" else phoneNumber,
             msgType := t, callType := callType, startTime := startTime,
             duration := duration, createdAt := env.localNow }] }
    | _, _ => db  -- dev_id/slot NOT NULL: INSERT fails, caught and logged
  let pushes :=
    if t = 601 then
      [{ eventType := "call", devId := devId, phoneNum := phoneNumber,
         callType := callType, slot := slot, netChannel := data.netCh }]
    else []
  { success := true, db := db1, pushes := pushes }

/-- `MessageHandler.handleSystemMessage` (998 and other system codes): ensure
device, refresh last-seen; push `device_status` unless it is the 998 PING. -/
def handleSystemMessage (env : JsEnv) (t : Int) (data : EventData) (db : DB) : HOut :=
  let db1 := ensureDeviceExists env data.devId db
  let db2 := updateDeviceLastSeen env data.devId db1
  let pushes :=
    if t ≠ 998 then
      [{ eventType := "device_status", devId := data.devId,
         status := getMessageTypeName t,
         detail := "系统消息: " ++ getMessageTypeName t }]
    else []
  { success := true, db := db2, pushes := pushes }

/-- `MessageHandler.handleMessage` (src/src/messageHandler.js:298-327): reject
falsy `devId` / missing `type`, record the raw message, then dispatch on the
category (the `switch` is modeled as an if-chain; the default branch only
logs). -/
def handleMessage (env : JsEnv) (saveRaw : Bool) (data : EventData) (db : DB) : HOut :=
  match data.devId, data.type with
  | some devId, some t =>
    if devId = "" then { success := false, error := some "无效的消息数据", db := db }
    else
      let db1 := recordMessage env saveRaw devId t data db
      let category := getMessageCategory t
      if category = "network" then handleNetworkMessage env t data db1
      else if category = "sim" then handleSimMessage env t data db1
      else if category = "sms" then handleSmsMessage env t data db1
      else if category = "call" then handleCallMessage env t data db1
      else if category = "system" then handleSystemMessage env t data db1
      else { success := true, db := db1 }
  | _, _ => { success := false, error := some "无效的消息数据", db := db }

/-- `MessageHandler.checkOfflineDevices` (src/src/messageHandler.js:640-657),
default timeout 300s: format `now - timeoutSeconds` through `formatTime` (a
`Date` object reaches the final `new Date(time)` branch), then run the bulk
`UPDATE ... WHERE status = 'online' AND last_seen_at < ?`.  A NULL
`last_seen_at` compares as NULL and is not updated. -/
def checkOfflineDevices (env : JsEnv) (timeoutSeconds : Int) (db : DB) : DB :=
  let thresholdMs := env.nowMs - timeoutSeconds * 1000
  let thresholdStr := formatTime env (some (.rdate thresholdMs))
  { db with devices := db.devices.map (fun d =>
      if d.status == DEVICE_STATUS_ONLINE &&
         (match d.lastSeenAt with
          | some s => sqliteTextLt s thresholdStr
          | none => false) then
        { d with status := DEVICE_STATUS_OFFLINE }
      else d) }

/-! ## Transport decryption (src/src/aesDecrypt.js)

The repository's own code — URL-safe Base64 normalization, re-padding, the
whole-payload (`p` field) vs per-field routing, the per-field try/catch
fallback, and the all-digit integer coercion — is embedded concretely.  The
external primitives it calls (Node's `crypto` AES-128-CBC/PKCS#7 cipher,
`JSON.parse`/`JSON.stringify`, UTF-8 `Buffer` codecs) are modeled as an
abstract `Codec` whose round-trip contracts appear as theorem hypotheses. -/

/-- The standard Base64 alphabet. -/
def b64Chars : List Char :=
  "ABCDEFGHIJKLMNOPQRSTUVWXYZabcdefghijklmnopqrstuvwxyz0123456789+/".toList

def sixToChar (n : Nat) : Char := b64Chars.getD n 'A'

def charToSix (c : Char) : Option Nat := b64Chars.findIdx? (fun x => x == c)

/-- Standard Base64 encoding of a byte list (3 bytes → 4 chars, `=`-padded). -/
def b64EncodeCore : List Nat → List Char
  | [] => []
  | [b1] => [sixToChar (b1 / 4), sixToChar (b1 % 4 * 16), '=', '=']
  | [b1, b2] => [sixToChar (b1 / 4), sixToChar (b1 % 4 * 16 + b2 / 16),
                 sixToChar (b2 % 16 * 4), '=']
  | b1 :: b2 :: b3 :: rest =>
    sixToChar (b1 / 4) :: sixToChar (b1 % 4 * 16 + b2 / 16) ::
    sixToChar (b2 % 16 * 4 + b3 / 64) :: sixToChar (b3 % 64) :: b64EncodeCore rest

/-- Base64 decoding (`Buffer.from(s, 'base64')`) on well-formed padded input;
the claims only exercise well-formed strings, so Node's tolerance of malformed
input is not modeled beyond total failure. -/
def b64DecodeCore : List Char → Option (List Nat)
  | [] => some []
  | c1 :: c2 :: c3 :: c4 :: rest =>
    if rest = [] ∧ c3 = '=' ∧ c4 = '=' then
      match charToSix c1, charToSix c2 with
      | some s1, some s2 => some [s1 * 4 + s2 / 16]
      | _, _ => none
    else if rest = [] ∧ c4 = '=' then
      match charToSix c1, charToSix c2, charToSix c3 with
      | some s1, some s2, some s3 => some [s1 * 4 + s2 / 16, s2 % 16 * 16 + s3 / 4]
      | _, _, _ => none
    else
      match charToSix c1, charToSix c2, charToSix c3, charToSix c4, b64DecodeCore rest with
      | some s1, some s2, some s3, some s4, some bs =>
        some ([s1 * 4 + s2 / 16, s2 % 16 * 16 + s3 / 4, s3 % 4 * 64 + s4] ++ bs)
      | _, _, _, _, _ => none
  | _ => none

/-- The per-character map of the two global replaces turning URL-safe Base64
back into standard Base64: dash to plus, underscore to slash. -/
def b64UnUrlChar (c : Char) : Char := if c = '-' then '+' else if c = '_' then '/' else c

/-- `aesDecrypt`'s Base64 normalization: URL-safe chars back to standard, then
the `while (base64.length % 4 !== 0) base64 += '='` loop (written in closed
form: it appends exactly `(4 - len % 4) % 4` pad characters). -/
def b64Normalize (s : String) : String :=
  let t := s.toList.map b64UnUrlChar
  String.mk (t ++ List.replicate ((4 - t.length % 4) % 4) '=')

/-- URL-safe alphabet map used by a sender. -/
def urlSafeChar (c : Char) : Char := if c = '+' then '-' else if c = '/' then '_' else c

/-- URL-safe Base64 encoding (the claim's sender side): standard encoding with
`+`/`/` replaced by `-`/`_`. -/
def urlSafeB64Encode (bs : List Nat) : String :=
  String.mk ((b64EncodeCore bs).map urlSafeChar)

/-- A decoded JS value inside an event object: string, number, or anything
else (which `decryptData` passes through untouched). -/
inductive JsVal where
  | vstr (s : String)
  | vnum (n : Int)
  | vother
deriving Repr, DecidableEq

/-- A flat JS object, in insertion order (`Object.entries`). -/
abbrev JsObject := List (String × JsVal)

/-- External primitives used by aesDecrypt.js but implemented outside this
repository (Node `crypto`, `JSON`, `Buffer` UTF-8).  Their contracts are
hypotheses of the theorems that need them. -/
structure Codec where
  utf8Enc : String → List Nat
  utf8Dec : List Nat → String
  jsonStringify : JsObject → String
  jsonParse : String → Option JsObject
  cipherEnc : List Nat → List Nat → List Nat → List Nat
  cipherDec : List Nat → List Nat → List Nat → Option (List Nat)

inductive JsError where
  | keyIvError (msg : String)
  | decryptionError (blob : String)
  | jsonParseError
deriving Repr, DecidableEq

def decDigitVal (c : Char) : Option Nat :=
  if c.isDigit then some (c.toNat - 48) else none

def hexDigitVal (c : Char) : Option Nat :=
  if c.isDigit then some (c.toNat - 48)
  else if 'a' ≤ c ∧ c ≤ 'f' then some (c.toNat - 87)
  else if 'A' ≤ c ∧ c ≤ 'F' then some (c.toNat - 55)
  else none

/-- `parseInt` over a pre-trimmed digit string: longest valid-digit run, NaN
(`none`) when it is empty.  (Signs and embedded whitespace never occur in the
key/IV byte lists the claims touch.) -/
def parseIntCore (digitVal : Char → Option Nat) (base : Nat) (cs : List Char) : Option Nat :=
  let ds := cs.takeWhile (fun c => (digitVal c).isSome)
  if ds = [] then none
  else some (ds.foldl (fun acc c => acc * base + (digitVal c).getD 0) 0)

def jsParseInt10 (s : String) : Option Nat := parseIntCore decDigitVal 10 s.toList

/-- `parseInt(p, 16)` accepts an optional `0x`/`0X` prefix. -/
def jsParseInt16 (s : String) : Option Nat :=
  let cs := s.toList
  let cs := if cs.take 2 = ['0', 'x'] ∨ cs.take 2 = ['0', 'X'] then cs.drop 2 else cs
  parseIntCore hexDigitVal 16 cs

/-- `parseKeyOrIv` (src/src/aesDecrypt.js:23-54): comma-separated decimal or
hex byte list, or a 16-character ASCII string.  `Buffer.from` coerces NaN to 0
and truncates each entry to a byte. -/
def parseKeyOrIv (codec : Codec) (input : String) : Except JsError (List Nat) :=
  if input = "" then .error (.keyIvError "AES KEY/IV 不能为空")
  else if input.toList.contains ',' then
    let parts := (input.splitOn ",").map (fun p => p.trim)
    let bytes := parts.map (fun p =>
      let v := if p.startsWith "0x" ∨ p.startsWith "0X" then jsParseInt16 p else jsParseInt10 p
      (v.getD 0) % 256)
    if bytes.length ≠ 16 then .error (.keyIvError "AES KEY/IV 必须是16字节")
    else .ok bytes
  else if input.length ≠ 16 then .error (.keyIvError "AES KEY/IV 必须是16字节")
  else .ok (codec.utf8Enc input)

/-- `aesDecrypt` (src/src/aesDecrypt.js:63-86): normalize URL-safe Base64,
re-pad, decode, decrypt, decode UTF-8.  `none` is the thrown `AES解密失败`
error (any step of the try block failing). -/
def aesDecrypt (codec : Codec) (encryptedBase64 : String) (key iv : List Nat) : Option String :=
  let base64 := b64Normalize encryptedBase64
  match b64DecodeCore base64.toList with
  | none => none
  | some encrypted =>
    match codec.cipherDec key iv encrypted with
    | none => none
    | some plain => some (codec.utf8Dec plain)

/-- The result of `decryptData`: a whole-payload decrypt returns the decrypted
JSON object; the per-field path returns the field map. -/
inductive DecryptOut where
  | whole (j : JsObject)
  | fields (o : JsObject)
deriving Repr, DecidableEq

/-- The `/^\d+$/` test. -/
def isAllDigits (s : String) : Bool := s ≠ "" && s.toList.all (fun c => c.isDigit)

/-- `parseInt(s, 10)` on an all-digit string. -/
def digitsToNat (s : String) : Nat :=
  s.toList.foldl (fun acc c => acc * 10 + (c.toNat - 48)) 0

/-- `data.p && typeof data.p === 'string'`: the whole-payload trigger. -/
def lookupP (data : JsObject) : Option String :=
  match data.find? (fun kv => kv.1 == "p") with
  | some (_, .vstr s) => if s = "" then none else some s
  | _ => none

/-- The per-field loop body: non-empty string values are decrypted in place,
all-digit plaintexts are coerced to integers, a failed decrypt keeps the raw
value (the catch branch), and non-string values pass through. -/
def decryptField (codec : Codec) (key iv : List Nat) (v : JsVal) : JsVal :=
  match v with
  | .vstr s =>
    if s.length > 0 then
      match aesDecrypt codec s key iv with
      | some d => if isAllDigits d then .vnum (Int.ofNat (digitsToNat d)) else .vstr d
      | none => .vstr s
    else .vstr s
  | v => v

structure AesConfig where
  enabled : Bool
  key : String
  iv : String
deriving Repr, DecidableEq

/-- `decryptData` (src/src/aesDecrypt.js:94-133).  `Except.error` is an
exception escaping to the route handler (key/IV parse failure, whole-payload
decrypt failure, or `JSON.parse` failure). -/
def decryptData (codec : Codec) (data : JsObject) (aesConfig : Option AesConfig) :
    Except JsError DecryptOut :=
  match aesConfig with
  | none => .ok (.fields data)
  | some cfg =>
    if cfg.enabled = false then .ok (.fields data)
    else
      match parseKeyOrIv codec cfg.key with
      | .error e => .error e
      | .ok key =>
        match parseKeyOrIv codec cfg.iv with
        | .error e => .error e
        | .ok iv =>
          match lookupP data with
          | some p =>
            match aesDecrypt codec p key iv with
            | none => .error (.decryptionError p)
            | some decryptedJson =>
              match codec.jsonParse decryptedJson with
              | some j => .ok (.whole j)
              | none => .error .jsonParseError
          | none =>
            .ok (.fields (data.map (fun kv => (kv.1, decryptField codec key iv kv.2))))

/-! ## Notification dispatcher (src/src/pushService.js, second revision)

The delivery adapters' message bodies (markdown/card/HTML strings) are elided:
no claim depends on their text.  What is embedded is the control flow that the
claims are about: channel selection, the per-send try/catch, the provider
response-envelope check, and the `Promise.allSettled` join.  The external
network call of each send is an abstract outcome per channel. -/

structure ChannelConf where
  webhook : String := ""
  host : String := ""
  user : String := ""
  pass : String := ""
deriving Repr, DecidableEq

/-- One `push_config` row as returned by `getConfigs` (config/events already
JSON-parsed). -/
structure PushConfigRow where
  channel : String
  enabled : Bool
  conf : ChannelConf
  events : List String
deriving Repr, DecidableEq

/-- Outcome of a channel's external delivery call: the `fetch`/`sendMail`
promise rejects, or resolves with the provider envelope's status code
(`errcode` for WeCom, `code` for Feishu; SMTP has no envelope). -/
inductive FetchOutcome where
  | throws
  | respond (code : Int)
deriving Repr, DecidableEq

inductive SendStatus where
  | skipped
  | delivered
  | errorLogged
deriving Repr, DecidableEq

/-- `formatMessage`: `null` for an unknown event type, otherwise a message
whose title is computed as in the source (bodies elided). -/
def formatMessage (eventType : String) (data : PushCall) : Option String :=
  if eventType = "sms" then
    some (if data.direction = "out" then "短信外发成功" else "收到新短信")
  else if eventType = "call" then
    some (if data.msgType = some 603 ∨ data.msgType = some 623 then "通话结束" else "收到来电")
  else if eventType = "device_status" then some "设备状态更新"
  else none

/-- `sendWeCom`'s try block: skip without webhook; a rejected fetch or a
non-zero `errcode` raises. -/
def sendWeComBody (outcome : FetchOutcome) (conf : ChannelConf) : Except String SendStatus :=
  if conf.webhook = "" then .ok .skipped
  else
    match outcome with
    | .throws => .error "fetch failed"
    | .respond c => if c ≠ 0 then .error "WeCom error" else .ok .delivered

/-- `sendWeCom` (src/src/pushService.js:561-587): the catch block logs the
error and returns normally. -/
def sendWeCom (outcome : FetchOutcome) (conf : ChannelConf) : SendStatus :=
  match sendWeComBody outcome conf with
  | .ok s => s
  | .error _ => .errorLogged

/-- `sendFeishu`'s try block (envelope field `code`). -/
def sendFeishuBody (outcome : FetchOutcome) (conf : ChannelConf) : Except String SendStatus :=
  if conf.webhook = "" then .ok .skipped
  else
    match outcome with
    | .throws => .error "fetch failed"
    | .respond c => if c ≠ 0 then .error "Feishu error" else .ok .delivered

def sendFeishu (outcome : FetchOutcome) (conf : ChannelConf) : SendStatus :=
  match sendFeishuBody outcome conf with
  | .ok s => s
  | .error _ => .errorLogged

/-- `sendSmtp`'s try block: skip without host/user/pass; `sendMail` either
resolves (no envelope check) or rejects. -/
def sendSmtpBody (outcome : FetchOutcome) (conf : ChannelConf) : Except String SendStatus :=
  if conf.host = "" ∨ conf.user = "" ∨ conf.pass = "" then .ok .skipped
  else
    match outcome with
    | .throws => .error "sendMail failed"
    | .respond _ => .ok .delivered

def sendSmtp (outcome : FetchOutcome) (conf : ChannelConf) : SendStatus :=
  match sendSmtpBody outcome conf with
  | .ok s => s
  | .error _ => .errorLogged

/-- A `Promise.allSettled` entry. -/
inductive Settled where
  | fulfilled (channel : String) (s : SendStatus)
  | rejected (reason : String)
deriving Repr, DecidableEq

/-- One iteration of `push`'s config loop: enabled + subscribed channels with
a formattable message get their channel's send promise; the `switch` has no
default, so an unknown channel name contributes nothing.  The outcome each
send sees is the external world's response for that channel alone. -/
def dispatchOne (envOutcome : String → FetchOutcome) (eventType : String)
    (data : PushCall) (cfg : PushConfigRow) : Option Settled :=
  if cfg.enabled ∧ cfg.events.contains eventType then
    match formatMessage eventType data with
    | some _ =>
      if cfg.channel = "wecom" then
        some (.fulfilled cfg.channel (sendWeCom (envOutcome cfg.channel) cfg.conf))
      else if cfg.channel = "feishu" then
        some (.fulfilled cfg.channel (sendFeishu (envOutcome cfg.channel) cfg.conf))
      else if cfg.channel = "smtp" then
        some (.fulfilled cfg.channel (sendSmtp (envOutcome cfg.channel) cfg.conf))
      else none
    | none => none
  else none

/-- `PushService.push` (src/src/pushService.js:290-327): the settled results
of all issued channel deliveries.  (The device-name enrichment at the top only
decorates the elided message text and sits in its own try/catch.)  Since every
send catches internally, each settled entry is fulfilled; `await
Promise.allSettled` then returns normally — `push` never raises. -/
def pushEmb (envOutcome : String → FetchOutcome) (configs : List PushConfigRow)
    (eventType : String) (data : PushCall) : List Settled :=
  configs.filterMap (dispatchOne envOutcome eventType data)

/-! ## Concrete fixtures used by witnesses and counterexamples -/

/-- A host running at UTC+8 (getTimezoneOffset = -480) at epoch instant
1700000000000 ms, with a date parser that accepts nothing. -/
def envW : JsEnv :=
  { nowMs := 1700000000000, tzOffsetMin := -480,
    localNow := "2023-11-15 06:13:20", parseDate := fun _ => none }

def dbEmpty : DB := {}

/-- The numeric-epoch interpretation step of `formatTime`: below
10,000,000,000 the value is epoch seconds, otherwise epoch milliseconds. -/
def interpNum (n : Int) : Int := if n < 10000000000 then n * 1000 else n

/-! ## Claim theorems -/

/-- C10: the canonical timestamp formatter is host-timezone independent — for
every fixed-offset host timezone (any `getTimezoneOffset` value) and every
numeric epoch input, `formatTime` returns the same string, and so does
`getBeijingTime` at a fixed instant: the `+ tzOffset*60000` correction applied
before formatting cancels the local interpretation of the date getters. -/
theorem c10_formatter_host_independent :
    (∀ (now tz₁ tz₂ : Int) (loc₁ loc₂ : String) (pd₁ pd₂ : String → Option Int) (n : Int),
      formatTime ⟨now, tz₁, loc₁, pd₁⟩ (some (.rnum n)) =
        formatTime ⟨now, tz₂, loc₂, pd₂⟩ (some (.rnum n))) ∧
    (∀ (now tz₁ tz₂ : Int) (loc₁ loc₂ : String) (pd₁ pd₂ : String → Option Int),
      getBeijingTime ⟨now, tz₁, loc₁, pd₁⟩ = getBeijingTime ⟨now, tz₂, loc₂, pd₂⟩) := by
  constructor
  · intro now tz₁ tz₂ loc₁ loc₂ pd₁ pd₂ n
    simp only [formatTime]
    congr 1
    ring
  · intro now tz₁ tz₂ loc₁ loc₂ pd₁ pd₂
    simp only [getBeijingTime]
    congr 1
    ring

/-- C4 (amended): for every call-category event, `handleCallMessage`
dispatches a `call` notification if and only if the event code is 601 (ring);
603 and 623 do not dispatch. -/
theorem c4_call_push_iff_601 (env : JsEnv) (t : Int) (data : EventData) (db : DB)
    (hcat : getMessageCategory t = "call") :
    (∃ p ∈ (handleCallMessage env t data db).pushes, p.eventType = "call") ↔ t = 601 := by
  simp only [handleCallMessage]
  by_cases h : t = 601
  · subst h
    simp
  · simp [h]

/-- C4 witness: the ring code 601 does dispatch a `call` notification. -/
theorem c4_call_push_iff_601_witness :
    ∃ p ∈ (handleCallMessage envW 601
      { devId := some "dev1", type := some 601, slot := some 1, phoneNum := some "10086" }
      dbEmpty).pushes, p.eventType = "call" :=
  (c4_call_push_iff_601 envW 601
    { devId := some "dev1", type := some 601, slot := some 1, phoneNum := some "10086" }
    dbEmpty (by decide)).mpr rfl

/-- C4 counterexample: 603 (remote hangup) is a call-category code, yet
`handleCallMessage` issues no notification at all for it — contradicting the
claim that codes 601, 603 and 623 all dispatch. -/
theorem c4_counterexample :
    getMessageCategory 603 = "call" ∧
    (handleCallMessage envW 603
      { devId := some "dev1", type := some 603, slot := some 1, phoneNum := some "10086" }
      dbEmpty).pushes = [] := by
  constructor
  · decide
  · rfl

/-- C3 counterexample (the host offset cancels out of `formatTime`, so the
fixture's host timezone is immaterial).  First conjunct: for
`sourceOffsetHours = 1` the claimed rendering
`rawInstant - 1*3600s + 8*3600s` differs from what `formatTime` produces for
epoch-seconds input 1700000000 (the code applies no source offset).  Second
conjunct: numeric input 0, although below 10,000,000,000, is NOT interpreted
as epoch seconds — being JS-falsy it takes the current-instant branch. -/
theorem c3_counterexample :
    (formatTime envW (some (.rnum 1700000000)) ≠
      renderUTC (1700000000 * 1000 - 1 * 3600000 + 8 * 3600000)) ∧
    (formatTime envW (some (.rnum 0)) ≠ renderUTC (0 * 1000 + 8 * 3600000)) := by
  refine ⟨by decide, by decide⟩

/-- C3 (amended): `formatTime` applies no per-source offset — it has no
`sourceOffsetHours` parameter, so the conversion is always
`rawInstant + 8*3600s` (i.e. `sourceOffsetHours = 0`), rendered by
`renderUTC` as a zero-padded `YYYY-MM-DD HH:mm:ss` string with no timezone
suffix.  An absent `rawTime` yields the current instant; a *nonzero* numeric
`rawTime` inside the representable date range is epoch seconds when below
10,000,000,000 and epoch milliseconds otherwise (numeric 0 is falsy and
out-of-range values make `getTime()` NaN, both falling back to the current
instant); an unparseable nonempty string falls back to the current instant
rather than erroring. -/
theorem c3_time_normalization (env : JsEnv) :
    (formatTime env none = renderUTC (env.nowMs + 8 * 3600000)) ∧
    (∀ s : String, s ≠ "" → env.parseDate s = none →
      formatTime env (some (.rstr s)) = renderUTC (env.nowMs + 8 * 3600000)) ∧
    (∀ n : Int, n ≠ 0 → (interpNum n).natAbs ≤ maxJsDateMs →
      formatTime env (some (.rnum n)) = renderUTC (interpNum n + 8 * 3600000)) := by
  refine ⟨?_, ?_, ?_⟩
  · simp only [formatTime]
    congr 1
    ring
  · intro s hs hparse
    simp only [formatTime, hparse, if_neg hs]
    congr 1
    ring
  · intro n hn hrange
    simp only [formatTime, interpNum] at hrange ⊢
    rw [if_neg hn, if_pos hrange]
    congr 1
    ring

/-- C3 witness: the amended statement evaluated at a concrete unparseable
string and at the concrete epoch-seconds input 1700000000. -/
theorem c3_time_normalization_witness :
    (formatTime envW (some (.rstr "not a date")) = renderUTC (envW.nowMs + 8 * 3600000)) ∧
    (formatTime envW (some (.rnum 1700000000)) = renderUTC (interpNum 1700000000 + 8 * 3600000)) :=
  ⟨(c3_time_normalization envW).2.1 "not a date" (by decide) rfl,
   (c3_time_normalization envW).2.2 1700000000 (by decide) (by decide)⟩

/-- No entry of the static classification table carries category `unknown`. -/
lemma messageTypes_cat_ne_unknown : ∀ e ∈ MESSAGE_TYPES, e.2.2 ≠ "unknown" := by decide

/-- A code classified `unknown` has no table entry at all. -/
lemma find?_eq_none_of_cat_unknown (t : Int) (h : getMessageCategory t = "unknown") :
    MESSAGE_TYPES.find? (fun e => e.1 == t) = none := by
  cases hf : MESSAGE_TYPES.find? (fun e => e.1 == t) with
  | none => rfl
  | some e =>
    exfalso
    have hmem := List.mem_of_find?_eq_some hf
    have hne := messageTypes_cat_ne_unknown e hmem
    rw [getMessageCategory, hf] at h
    exact hne h

/-- C9 (amended): for every code outside the classification table,
classification is total (these are total functions) and yields category
`unknown` with the synthesized label `未知消息(<code>)`; `handleMessage`
returns success, touches no Device/SimCard/SmsRecord/CallRecord rows, and —
exactly when raw-logging is enabled — appends exactly one `messages` row
bearing that label. -/
theorem c9_unknown_type (env : JsEnv) (saveRaw : Bool) (data : EventData) (db : DB)
    (d : String) (t : Int) (hd : data.devId = some d) (hne : d ≠ "")
    (ht : data.type = some t) (hcat : getMessageCategory t = "unknown") :
    (handleMessage env saveRaw data db).success = true ∧
    (handleMessage env saveRaw data db).db.simCards = db.simCards ∧
    (handleMessage env saveRaw data db).db.smsRecords = db.smsRecords ∧
    (handleMessage env saveRaw data db).db.callRecords = db.callRecords ∧
    (handleMessage env saveRaw data db).db.devices = db.devices ∧
    (handleMessage env saveRaw data db).db.messages = db.messages ++
      (if saveRaw then
        [{ devId := d, type := t, typeName := "未知消息(" ++ toString t ++ ")",
           rawData := data, createdAt := formatTime env none }]
       else []) ∧
    getMessageTypeName t = "未知消息(" ++ toString t ++ ")" := by
  have hname : getMessageTypeName t = "未知消息(" ++ toString t ++ ")" := by
    rw [getMessageTypeName, find?_eq_none_of_cat_unknown t hcat]
  have hmsg : handleMessage env saveRaw data db =
      { success := true, db := recordMessage env saveRaw d t data db } := by
    simp only [handleMessage, hd, ht, if_neg hne, hcat]
    rfl
  rw [hmsg]
  refine ⟨rfl, ?_, ?_, ?_, ?_, ?_, hname⟩ <;>
    cases saveRaw <;> simp [recordMessage, hname]

/-- C9 witness: the amended statement at code 9999 on a fresh store. -/
theorem c9_unknown_type_witness :
    (handleMessage envW true { devId := some "dev1", type := some 9999 } dbEmpty).success = true ∧
    (handleMessage envW true { devId := some "dev1", type := some 9999 } dbEmpty).db.simCards =
      dbEmpty.simCards ∧
    getMessageTypeName 9999 = "未知消息(" ++ toString (9999 : Int) ++ ")" := by
  have h := c9_unknown_type envW true { devId := some "dev1", type := some 9999 } dbEmpty
    "dev1" 9999 rfl (by decide) rfl (by decide)
  exact ⟨h.1, h.2.1, h.2.2.2.2.2.2⟩

/-- C9 counterexample: the synthesized label for 9999 is the source's
`未知消息(9999)`, not the claimed English string `unknown message(9999)`; the
single audit row written for such an event carries the former. -/
theorem c9_counterexample :
    getMessageTypeName 9999 = "未知消息(9999)" ∧
    "未知消息(9999)" ≠ "unknown message(9999)" ∧
    ((handleMessage envW true { devId := some "dev1", type := some 9999 } dbEmpty).db.messages.map
      (fun m => m.typeName)) = ["未知消息(9999)"] := by
  refine ⟨by decide, by decide, ?_⟩
  rfl

/-- C8: one sweep call flips exactly the currently-online rows whose
`last_seen_at` precedes the formatted `now - timeoutSeconds` threshold
(timestamps are canonical-format strings, which compare chronologically under
SQLite's TEXT ordering `sqliteTextLt`), leaves every other row untouched —
already-offline rows, rows with newer `last_seen_at`, and rows with NULL
`last_seen_at` keep every field — and preserves the row count. -/
theorem c8_offline_sweep (env : JsEnv) (timeout : Int) (db : DB) (d : Device)
    (hmem : d ∈ db.devices)
    (hrange : (env.nowMs - timeout * 1000).natAbs ≤ maxJsDateMs) :
    (checkOfflineDevices env timeout db).devices.length = db.devices.length ∧
    (∀ s, d.status = DEVICE_STATUS_ONLINE → d.lastSeenAt = some s →
      sqliteTextLt s (renderUTC (env.nowMs - timeout * 1000 + 8 * 3600000)) = true →
      { d with status := DEVICE_STATUS_OFFLINE } ∈ (checkOfflineDevices env timeout db).devices) ∧
    (∀ s, d.status = DEVICE_STATUS_ONLINE → d.lastSeenAt = some s →
      sqliteTextLt s (renderUTC (env.nowMs - timeout * 1000 + 8 * 3600000)) = false →
      d ∈ (checkOfflineDevices env timeout db).devices) ∧
    (d.status ≠ DEVICE_STATUS_ONLINE → d ∈ (checkOfflineDevices env timeout db).devices) ∧
    (d.lastSeenAt = none → d ∈ (checkOfflineDevices env timeout db).devices) := by
  have hthr : formatTime env (some (.rdate (env.nowMs - timeout * 1000))) =
      renderUTC (env.nowMs - timeout * 1000 + 8 * 3600000) := by
    simp only [formatTime, if_pos hrange]
    congr 1
    ring
  refine ⟨?_, ?_, ?_, ?_, ?_⟩
  · simp [checkOfflineDevices]
  · intro s hstat hseen hlt
    norm_num at hlt
    simp only [checkOfflineDevices, hthr]
    refine List.mem_map.mpr ⟨d, hmem, ?_⟩
    simp [hstat, hseen, hlt]
  · intro s hstat hseen hlt
    norm_num at hlt
    simp only [checkOfflineDevices, hthr]
    refine List.mem_map.mpr ⟨d, hmem, ?_⟩
    simp [hstat, hseen, hlt]
  · intro hstat
    have hb : (d.status == DEVICE_STATUS_ONLINE) = false := by
      simp [hstat]
    simp only [checkOfflineDevices, hthr]
    refine List.mem_map.mpr ⟨d, hmem, ?_⟩
    simp [hb]
  · intro hseen
    simp only [checkOfflineDevices, hthr]
    refine List.mem_map.mpr ⟨d, hmem, ?_⟩
    simp [hseen]

/-- A stale online device (last seen 05:00:00, over an hour before the
fixture's now). -/
def devStale : Device :=
  { devId := "dev1", status := "online", lastSeenAt := some "2023-11-15 05:00:00",
    createdAt := "2023-11-15 05:00:00", updatedAt := "2023-11-15 05:00:00" }

/-- A fresh online device (last seen 06:13:00, inside the 300s window). -/
def devFresh : Device :=
  { devId := "dev2", status := "online", lastSeenAt := some "2023-11-15 06:13:00",
    createdAt := "2023-11-15 06:13:00", updatedAt := "2023-11-15 06:13:00" }

def dbSweep : DB := { devices := [devStale, devFresh] }

/-- C8 witness: sweeping with a 300s timeout at the fixture instant flips the
stale device and leaves the fresh one untouched. -/
theorem c8_offline_sweep_witness :
    ({ devStale with status := DEVICE_STATUS_OFFLINE } ∈
      (checkOfflineDevices envW 300 dbSweep).devices) ∧
    (devFresh ∈ (checkOfflineDevices envW 300 dbSweep).devices) :=
  ⟨(c8_offline_sweep envW 300 dbSweep devStale (by decide) (by decide)).2.1
      "2023-11-15 05:00:00" rfl rfl (by decide),
   (c8_offline_sweep envW 300 dbSweep devFresh (by decide) (by decide)).2.2.1
      "2023-11-15 06:13:00" rfl rfl (by decide)⟩

/-! ### Device-count bookkeeping for C1 -/

lemma countDev_le_length (db : DB) (x : String) : countDev db x ≤ db.devices.length :=
  List.length_filter_le _ _

lemma countSim_le_length (db : DB) (x : String) (y : Int) :
    countSim db x y ≤ db.simCards.length :=
  List.length_filter_le _ _

/-- Filtering by `dev_id` is blind to a rewrite that preserves `dev_id`. -/
lemma filter_map_pres (f : Device → Device) (hf : ∀ d, (f d).devId = d.devId)
    (l : List Device) (x : String) :
    ((l.map f).filter (fun d => d.devId == x)).length =
      (l.filter (fun d => d.devId == x)).length := by
  induction l with
  | nil => rfl
  | cons a l ih =>
    simp only [List.map_cons, List.filter_cons, hf a]
    cases h : (a.devId == x) <;> simp [h, ih]

lemma countDev_of_find?_none (db : DB) (x : String)
    (h : db.devices.find? (devKeyMatches (some x)) = none) : countDev db x = 0 := by
  rw [countDev, List.length_eq_zero, List.filter_eq_nil_iff]
  intro a ha
  have hna := List.find?_eq_none.mp h a ha
  simpa [devKeyMatches] using hna

lemma countDev_pos_of_find?_some (db : DB) (x : String) (w : Device)
    (h : db.devices.find? (devKeyMatches (some x)) = some w) : 1 ≤ countDev db x := by
  have hw := List.mem_of_find?_eq_some h
  have hp : devKeyMatches (some x) w = true := List.find?_some h
  have hmem : w ∈ db.devices.filter (fun d => d.devId == x) := by
    rw [List.mem_filter]
    exact ⟨hw, by simpa [devKeyMatches] using hp⟩
  exact List.length_pos.mpr (List.ne_nil_of_mem hmem)

lemma recordMessage_devices (env : JsEnv) (saveRaw : Bool) (d : String) (t : Int)
    (data : EventData) (db : DB) :
    (recordMessage env saveRaw d t data db).devices = db.devices := by
  rw [recordMessage]
  split <;> rfl

lemma countDev_recordMessage (env : JsEnv) (saveRaw : Bool) (d : String) (t : Int)
    (data : EventData) (db : DB) (x : String) :
    countDev (recordMessage env saveRaw d t data db) x = countDev db x := by
  rw [countDev, countDev, recordMessage_devices]

lemma countDev_updateLastSeen (env : JsEnv) (k : Option String) (db : DB) (x : String) :
    countDev (updateDeviceLastSeen env k db) x = countDev db x := by
  unfold updateDeviceLastSeen countDev
  exact filter_map_pres _ (fun dd => by by_cases hm : devKeyMatches k dd <;> simp [hm]) _ _

lemma countDev_ensure (env : JsEnv) (db : DB) (x : String)
    (hu : ∀ y, countDev db y ≤ 1) :
    countDev (ensureDeviceExists env (some x) db) x = 1 := by
  unfold ensureDeviceExists
  cases hf : db.devices.find? (devKeyMatches (some x)) with
  | some w =>
    exact le_antisymm (hu x) (countDev_pos_of_find?_some db x w hf)
  | none =>
    have h0 : countDev db x = 0 := countDev_of_find?_none db x hf
    rw [countDev] at h0 ⊢
    simp [List.filter_append, h0]

/-- C1 network path: after `handleNetworkMessage` there is exactly one row for
the event's `dev_id` (updated in place, or freshly inserted). -/
lemma countDev_network (env : JsEnv) (t : Int) (data : EventData) (db : DB) (x : String)
    (hu : ∀ y, countDev db y ≤ 1) (hd : data.devId = some x) :
    countDev (handleNetworkMessage env t data db).db x = 1 := by
  simp only [handleNetworkMessage, hd]
  cases hf : db.devices.find? (devKeyMatches (some x)) with
  | some w =>
    have h1 : countDev db x = 1 :=
      le_antisymm (hu x) (countDev_pos_of_find?_some db x w hf)
    rw [countDev] at h1 ⊢
    rw [filter_map_pres _ (fun dd => by by_cases hm : devKeyMatches (some x) dd <;> simp [hm])]
    exact h1
  | none =>
    have h0 : countDev db x = 0 := countDev_of_find?_none db x hf
    rw [countDev] at h0 ⊢
    simp [List.filter_append, h0]

lemma handleSim_devices (env : JsEnv) (t : Int) (data : EventData) (db : DB) :
    (handleSimMessage env t data db).db.devices =
      (updateDeviceLastSeen env data.devId (ensureDeviceExists env data.devId db)).devices := by
  simp only [handleSimMessage, updateDeviceLastSeen]
  cases (ensureDeviceExists env data.devId db).simCards.find?
      (simKeyMatches data.devId data.slot) with
  | some w => rfl
  | none => cases data.devId <;> cases data.slot <;> rfl

lemma countDev_handleSim (env : JsEnv) (t : Int) (data : EventData) (db : DB) (x : String)
    (hu : ∀ y, countDev db y ≤ 1) (hd : data.devId = some x) :
    countDev (handleSimMessage env t data db).db x = 1 := by
  rw [countDev, handleSim_devices, ← countDev, hd, countDev_updateLastSeen]
  exact countDev_ensure env db x hu

lemma countDev_handleSystem (env : JsEnv) (t : Int) (data : EventData) (db : DB) (x : String)
    (hu : ∀ y, countDev db y ≤ 1) (hd : data.devId = some x) :
    countDev (handleSystemMessage env t data db).db x = 1 := by
  have hdb : (handleSystemMessage env t data db).db =
      updateDeviceLastSeen env data.devId (ensureDeviceExists env data.devId db) := rfl
  rw [hdb, hd, countDev_updateLastSeen]
  exact countDev_ensure env db x hu

lemma handleSms_devices (env : JsEnv) (t : Int) (data : EventData) (db : DB) :
    (handleSmsMessage env t data db).db.devices = db.devices := by
  unfold handleSmsMessage
  cases data.devId <;> cases data.slot <;> rfl

lemma handleCall_devices (env : JsEnv) (t : Int) (data : EventData) (db : DB) :
    (handleCallMessage env t data db).db.devices = db.devices := by
  unfold handleCallMessage
  cases data.devId <;> cases data.slot <;> rfl

/-- C1 (amended): for every event with a truthy `devId` and a `type` in a
known category, `handleMessage` returns success; for the network, sim and
system categories exactly one Device row with that `devId` exists afterwards
(auto-created if absent); the sms and call handlers, however, leave the
`devices` table entirely untouched — they create no Device row. -/
theorem c1_known_category_device_row (env : JsEnv) (saveRaw : Bool) (data : EventData)
    (db : DB) (d : String) (t : Int)
    (hu : ∀ y, countDev db y ≤ 1)
    (hd : data.devId = some d) (hne : d ≠ "") (ht : data.type = some t)
    (hcat : getMessageCategory t ∈ (["network", "sim", "sms", "call", "system"] : List String)) :
    (handleMessage env saveRaw data db).success = true ∧
    (getMessageCategory t ∈ (["network", "sim", "system"] : List String) →
      countDev (handleMessage env saveRaw data db).db d = 1) ∧
    (getMessageCategory t ∈ (["sms", "call"] : List String) →
      (handleMessage env saveRaw data db).db.devices = db.devices) := by
  have hu1 : ∀ y, countDev (recordMessage env saveRaw d t data db) y ≤ 1 := by
    intro y
    rw [countDev_recordMessage]
    exact hu y
  have hred : handleMessage env saveRaw data db =
      (if getMessageCategory t = "network" then
        handleNetworkMessage env t data (recordMessage env saveRaw d t data db)
      else if getMessageCategory t = "sim" then
        handleSimMessage env t data (recordMessage env saveRaw d t data db)
      else if getMessageCategory t = "sms" then
        handleSmsMessage env t data (recordMessage env saveRaw d t data db)
      else if getMessageCategory t = "call" then
        handleCallMessage env t data (recordMessage env saveRaw d t data db)
      else if getMessageCategory t = "system" then
        handleSystemMessage env t data (recordMessage env saveRaw d t data db)
      else { success := true, db := recordMessage env saveRaw d t data db }) := by
    simp only [handleMessage, hd, ht, if_neg hne]
  simp only [List.mem_cons, List.not_mem_nil, or_false] at hcat
  rcases hcat with h | h | h | h | h
  · rw [hred, if_pos h]
    refine ⟨rfl, fun _ => countDev_network env t data _ d hu1 hd, fun hmem => ?_⟩
    rw [h] at hmem
    exact absurd hmem (by decide)
  · have h1 : getMessageCategory t ≠ "network" := by rw [h]; decide
    rw [hred, if_neg h1, if_pos h]
    refine ⟨rfl, fun _ => countDev_handleSim env t data _ d hu1 hd, fun hmem => ?_⟩
    rw [h] at hmem
    exact absurd hmem (by decide)
  · have h1 : getMessageCategory t ≠ "network" := by rw [h]; decide
    have h2 : getMessageCategory t ≠ "sim" := by rw [h]; decide
    rw [hred, if_neg h1, if_neg h2, if_pos h]
    refine ⟨rfl, fun hmem => ?_, fun _ => ?_⟩
    · rw [h] at hmem
      exact absurd hmem (by decide)
    · rw [handleSms_devices, recordMessage_devices]
  · have h1 : getMessageCategory t ≠ "network" := by rw [h]; decide
    have h2 : getMessageCategory t ≠ "sim" := by rw [h]; decide
    have h3 : getMessageCategory t ≠ "sms" := by rw [h]; decide
    rw [hred, if_neg h1, if_neg h2, if_neg h3, if_pos h]
    refine ⟨rfl, fun hmem => ?_, fun _ => ?_⟩
    · rw [h] at hmem
      exact absurd hmem (by decide)
    · rw [handleCall_devices, recordMessage_devices]
  · have h1 : getMessageCategory t ≠ "network" := by rw [h]; decide
    have h2 : getMessageCategory t ≠ "sim" := by rw [h]; decide
    have h3 : getMessageCategory t ≠ "sms" := by rw [h]; decide
    have h4 : getMessageCategory t ≠ "call" := by rw [h]; decide
    rw [hred, if_neg h1, if_neg h2, if_neg h3, if_neg h4, if_pos h]
    refine ⟨rfl, fun _ => countDev_handleSystem env t data _ d hu1 hd, fun hmem => ?_⟩
    rw [h] at hmem
    exact absurd hmem (by decide)

/-- C1 witness: a network event (type 100) on a fresh store succeeds and
auto-creates exactly one Device row. -/
theorem c1_known_category_device_row_witness :
    (handleMessage envW true
      { devId := some "dev1", type := some 100, ip := some "1.2.3.4" } dbEmpty).success = true ∧
    countDev (handleMessage envW true
      { devId := some "dev1", type := some 100, ip := some "1.2.3.4" } dbEmpty).db "dev1" = 1 := by
  have h := c1_known_category_device_row envW true
    { devId := some "dev1", type := some 100, ip := some "1.2.3.4" } dbEmpty "dev1" 100
    (fun y => le_trans (countDev_le_length dbEmpty y) (by decide))
    rfl (by decide) rfl (by decide)
  exact ⟨h.1, h.2.1 (by decide)⟩

/-- C1 counterexample: an SMS event (type 501, a known category) with an
unknown `devId` succeeds but creates no Device row at all — the store holds
zero rows for that `devId` afterwards, not exactly one. -/
theorem c1_counterexample :
    (handleMessage envW true
      { devId := some "dev9", type := some 501, slot := some 1,
        phoneNum := some "10086", content := some "hello" } dbEmpty).success = true ∧
    countDev (handleMessage envW true
      { devId := some "dev9", type := some 501, slot := some 1,
        phoneNum := some "10086", content := some "hello" } dbEmpty).db "dev9" = 0 ∧
    countDev (handleMessage envW true
      { devId := some "dev9", type := some 501, slot := some 1,
        phoneNum := some "10086", content := some "hello" } dbEmpty).db "dev9" ≠ 1 := by
  refine ⟨rfl, rfl, by decide⟩

/-! ### SimCard merge bookkeeping for C2 -/

@[simp] lemma simMergeRow_devId (data : EventData) (st now : String) (c : SimCard) :
    (simMergeRow data st now c).devId = c.devId := rfl

@[simp] lemma simMergeRow_slot (data : EventData) (st now : String) (c : SimCard) :
    (simMergeRow data st now c).slot = c.slot := rfl

lemma nonBlank_ne (p old : String) (h : old ≠ "") : nonBlank p old ≠ "" := by
  rw [nonBlank]
  split
  · exact h
  · next hp => exact hp

lemma filter_map_comm {α : Type} (g : α → α) (p : α → Bool)
    (hg : ∀ a, p (g a) = p a) (l : List α) :
    (l.map g).filter p = (l.filter p).map g := by
  induction l with
  | nil => rfl
  | cons a l ih =>
    simp only [List.map_cons, List.filter_cons, hg a]
    cases h : p a <;> simp [h, ih]

lemma filter_eq_singleton {α : Type} (l : List α) (p : α → Bool) (r : α)
    (hmem : r ∈ l) (hp : p r = true) (hcount : (l.filter p).length ≤ 1) :
    l.filter p = [r] := by
  have hrmem : r ∈ l.filter p := List.mem_filter.mpr ⟨hmem, hp⟩
  cases hf : l.filter p with
  | nil =>
    rw [hf] at hrmem
    cases hrmem
  | cons a tl =>
    rw [hf] at hrmem hcount
    have htl : tl = [] := List.eq_nil_of_length_eq_zero
      (by rw [List.length_cons] at hcount; omega)
    subst htl
    rcases List.mem_singleton.mp hrmem with rfl
    rfl

lemma ensure_simCards (env : JsEnv) (k : Option String) (db : DB) :
    (ensureDeviceExists env k db).simCards = db.simCards := by
  unfold ensureDeviceExists
  cases db.devices.find? (devKeyMatches k) with
  | some w => rfl
  | none => cases k <;> rfl

/-- When a matching row exists, the SIM upsert takes the UPDATE branch: the
`sim_cards` table is rewritten pointwise by the merge. -/
lemma handleSim_simCards_of_exists (env : JsEnv) (t : Int) (data : EventData) (db : DB)
    (hex : (db.simCards.find? (simKeyMatches data.devId data.slot)).isSome) :
    (handleSimMessage env t data db).db.simCards =
      db.simCards.map (fun c =>
        if simKeyMatches data.devId data.slot c then
          simMergeRow data (simStatusFor t) (formatTime env none) c
        else c) := by
  simp only [handleSimMessage, ensure_simCards]
  obtain ⟨w, hw⟩ := Option.isSome_iff_exists.mp hex
  rw [hw]
  rfl

/-- Core of C2: with a unique existing row `r` for the event's `(devId, slot)`
key, `handleSimMessage` leaves exactly the merged row for that key, and every
per-key row count of the `sim_cards` table is unchanged. -/
lemma handleSim_existing_core (env : JsEnv) (t : Int) (ev : EventData) (db : DB)
    (x : String) (y : Int) (r : SimCard)
    (hd : ev.devId = some x) (hs : ev.slot = some y)
    (hu : ∀ a b, countSim db a b ≤ 1)
    (hmem : r ∈ db.simCards) (hrx : r.devId = x) (hry : r.slot = y) :
    simMergeRow ev (simStatusFor t) (formatTime env none) r ∈
      (handleSimMessage env t ev db).db.simCards ∧
    (handleSimMessage env t ev db).db.simCards.filter
        (fun c => c.devId == x && c.slot == y) =
      [simMergeRow ev (simStatusFor t) (formatTime env none) r] ∧
    (∀ a b, countSim (handleSimMessage env t ev db).db a b = countSim db a b) := by
  have hp : simKeyMatches ev.devId ev.slot r = true := by
    rw [hd, hs]
    simp [simKeyMatches, hrx, hry]
  have hex : (db.simCards.find? (simKeyMatches ev.devId ev.slot)).isSome := by
    rw [List.find?_isSome]
    exact ⟨r, hmem, hp⟩
  have heq := handleSim_simCards_of_exists env t ev db hex
  have hgpres : ∀ (a : String) (b : Int) (c : SimCard),
      (fun c => c.devId == a && c.slot == b)
        ((fun c => if simKeyMatches ev.devId ev.slot c then
            simMergeRow ev (simStatusFor t) (formatTime env none) c else c) c) =
      (fun c => c.devId == a && c.slot == b) c := by
    intro a b c
    by_cases hc : simKeyMatches ev.devId ev.slot c = true <;> simp [hc]
  have hfilter : db.simCards.filter (fun c => c.devId == x && c.slot == y) = [r] :=
    filter_eq_singleton _ _ r hmem (by simp [hrx, hry]) (hu x y)
  refine ⟨?_, ?_, ?_⟩
  · rw [heq]
    have hgr : (fun c => if simKeyMatches ev.devId ev.slot c then
        simMergeRow ev (simStatusFor t) (formatTime env none) c else c) r =
        simMergeRow ev (simStatusFor t) (formatTime env none) r := by
      simp [hp]
    exact hgr ▸ List.mem_map_of_mem _ hmem
  · rw [heq, filter_map_comm _ _ (hgpres x y), hfilter, List.map_cons, List.map_nil]
    simp [hp]
  · intro a b
    rw [countSim, countSim, heq, filter_map_comm _ _ (hgpres a b), List.length_map]

/-- C2: SimCard upsert is a merge keyed on the unique `(devId, slot)` pair.
First part: for any event on an existing unique row, a single row for the key
remains and no previously non-empty string payload field (iccid, imsi, msisdn,
plmn) becomes empty.  Second part: an event carrying only `iccid` followed by
one carrying only `imsi` leaves a single row with both fields populated and
the other payload fields untouched. -/
theorem c2_sim_merge_upsert (env : JsEnv) (db : DB) (x : String) (y : Int) (r : SimCard)
    (hu : ∀ a b, countSim db a b ≤ 1)
    (hmem : r ∈ db.simCards) (hrx : r.devId = x) (hry : r.slot = y) :
    (∀ (t : Int) (ev : EventData), ev.devId = some x → ev.slot = some y →
      countSim (handleSimMessage env t ev db).db x y = 1 ∧
      ∃ r₂ ∈ (handleSimMessage env t ev db).db.simCards,
        r₂.devId = x ∧ r₂.slot = y ∧
        (r.iccid ≠ "" → r₂.iccid ≠ "") ∧ (r.imsi ≠ "" → r₂.imsi ≠ "") ∧
        (r.msisdn ≠ "" → r₂.msisdn ≠ "") ∧ (r.plmn ≠ "" → r₂.plmn ≠ "")) ∧
    (∀ (t₁ t₂ : Int) (i m : String), i ≠ "" → m ≠ "" →
      countSim (handleSimMessage env t₂ { devId := some x, slot := some y, imsi := some m }
        (handleSimMessage env t₁ { devId := some x, slot := some y, iccId := some i } db).db).db
        x y = 1 ∧
      ∃ r₂ ∈ (handleSimMessage env t₂ { devId := some x, slot := some y, imsi := some m }
        (handleSimMessage env t₁ { devId := some x, slot := some y, iccId := some i } db).db).db.simCards,
        r₂.devId = x ∧ r₂.slot = y ∧ r₂.iccid = i ∧ r₂.imsi = m ∧
        r₂.msisdn = r.msisdn ∧ r₂.plmn = r.plmn) := by
  have hcount1 : countSim db x y = 1 := by
    rw [countSim, filter_eq_singleton _ _ r hmem (by simp [hrx, hry]) (hu x y)]
    rfl
  constructor
  · intro t ev hd hs
    obtain ⟨hmem2, _, hcounts⟩ :=
      handleSim_existing_core env t ev db x y r hd hs hu hmem hrx hry
    refine ⟨by rw [hcounts x y, hcount1], ⟨_, hmem2, by simp [hrx], by simp [hry], ?_, ?_, ?_, ?_⟩⟩
    · exact fun h => nonBlank_ne _ _ h
    · exact fun h => nonBlank_ne _ _ h
    · exact fun h => nonBlank_ne _ _ h
    · exact fun h => nonBlank_ne _ _ h
  · intro t₁ t₂ i m hi hm
    obtain ⟨hmem1, _, hcounts1⟩ :=
      handleSim_existing_core env t₁ { devId := some x, slot := some y, iccId := some i } db
        x y r rfl rfl hu hmem hrx hry
    set db1 := (handleSimMessage env t₁ { devId := some x, slot := some y, iccId := some i } db).db
      with hdb1
    set r1 := simMergeRow { devId := some x, slot := some y, iccId := some i }
        (simStatusFor t₁) (formatTime env none) r with hr1
    have hu1 : ∀ a b, countSim db1 a b ≤ 1 := fun a b => by
      rw [hcounts1 a b]
      exact hu a b
    obtain ⟨hmem2, _, hcounts2⟩ :=
      handleSim_existing_core env t₂ { devId := some x, slot := some y, imsi := some m } db1
        x y r1 rfl rfl hu1 hmem1 (by simp [hr1, hrx]) (by simp [hr1, hry])
    refine ⟨by rw [hcounts2 x y, hcounts1 x y, hcount1], ⟨_, hmem2, ?_, ?_, ?_, ?_, ?_, ?_⟩⟩
    · simp [hr1, hrx]
    · simp [hr1, hry]
    · simp [hr1, simMergeRow, nonBlank, jsOrStr, hi, hm]
    · simp [hr1, simMergeRow, nonBlank, jsOrStr, hi, hm]
    · simp [hr1, simMergeRow, nonBlank, jsOrStr]
    · simp [hr1, simMergeRow, nonBlank, jsOrStr]

/-- An existing SimCard row that already knows its msisdn but not its
iccid/imsi. -/
def simRowW : SimCard := { devId := "dev1", slot := 1, msisdn := "10086", updatedAt := "t0" }

def dbSimW : DB := { simCards := [simRowW] }

/-- C2 witness: an iccid-only event (203) followed by an imsi-only event
(204) on the fixture row leaves one row holding iccid, imsi and the
previously-known msisdn. -/
theorem c2_sim_merge_upsert_witness :
    countSim (handleSimMessage envW 204
      { devId := some "dev1", slot := some 1, imsi := some "460001234567890" }
      (handleSimMessage envW 203
        { devId := some "dev1", slot := some 1, iccId := some "89860001" } dbSimW).db).db
      "dev1" 1 = 1 ∧
    ∃ r₂ ∈ (handleSimMessage envW 204
      { devId := some "dev1", slot := some 1, imsi := some "460001234567890" }
      (handleSimMessage envW 203
        { devId := some "dev1", slot := some 1, iccId := some "89860001" } dbSimW).db).db.simCards,
      r₂.devId = "dev1" ∧ r₂.slot = 1 ∧ r₂.iccid = "89860001" ∧
      r₂.imsi = "460001234567890" ∧ r₂.msisdn = "10086" := by
  have h := (c2_sim_merge_upsert envW dbSimW "dev1" 1 simRowW
    (fun a b => le_trans (countSim_le_length dbSimW a b) (by decide))
    (by decide) rfl rfl).2 203 204 "89860001" "460001234567890" (by decide) (by decide)
  obtain ⟨hc, r₂, hr₂, h1, h2, h3, h4, h5, _⟩ := h
  exact ⟨hc, r₂, hr₂, h1, h2, h3, h4, by rw [h5]; rfl⟩

/-- Anything `dispatchOne` emits is a fulfilled settlement: the `switch`
pushes only already-caught send results. -/
lemma dispatchOne_fulfilled (envOutcome : String → FetchOutcome) (ev : String)
    (data : PushCall) (cfg : PushConfigRow) (r : Settled)
    (h : dispatchOne envOutcome ev data cfg = some r) : ∃ ch st, r = .fulfilled ch st := by
  unfold dispatchOne at h
  by_cases h1 : cfg.enabled = true ∧ cfg.events.contains ev = true
  · rw [if_pos h1] at h
    cases hq : formatMessage ev data with
    | none =>
      rw [hq] at h
      simp at h
    | some msg =>
      rw [hq] at h
      simp only [] at h
      split_ifs at h
      all_goals exact ⟨_, _, (Option.some.inj h).symm⟩
  · rw [if_neg h1] at h
    cases h

/-- C7: notification dispatch isolates per-channel failures.  (i) Every
settled result of `push` is fulfilled — each send catches internally and
`Promise.allSettled` never rejects, so `push` never raises to its caller.
(ii) A channel's dispatch result depends only on its own channel's external
outcome: another channel raising or erroring cannot change it.  (iii) Every
channel whose dispatch produces a promise has its settled result in `push`'s
join, whatever the other channels' outcomes. -/
theorem c7_dispatch_isolation :
    (∀ (envOutcome : String → FetchOutcome) (configs : List PushConfigRow)
       (ev : String) (data : PushCall),
       ∀ r ∈ pushEmb envOutcome configs ev data, ∃ ch st, r = .fulfilled ch st) ∧
    (∀ (ev : String) (data : PushCall) (cfg : PushConfigRow)
       (env₁ env₂ : String → FetchOutcome), env₁ cfg.channel = env₂ cfg.channel →
       dispatchOne env₁ ev data cfg = dispatchOne env₂ ev data cfg) ∧
    (∀ (envOutcome : String → FetchOutcome) (configs : List PushConfigRow)
       (ev : String) (data : PushCall) (cfg : PushConfigRow), cfg ∈ configs →
       ∀ r, dispatchOne envOutcome ev data cfg = some r →
         r ∈ pushEmb envOutcome configs ev data) := by
  refine ⟨?_, ?_, ?_⟩
  · intro envOutcome configs ev data r hr
    rw [pushEmb] at hr
    obtain ⟨cfg, _, hsome⟩ := List.mem_filterMap.mp hr
    exact dispatchOne_fulfilled envOutcome ev data cfg r hsome
  · intro ev data cfg env₁ env₂ h
    simp only [dispatchOne, h]
  · intro envOutcome configs ev data cfg hmem r hsome
    rw [pushEmb]
    exact List.mem_filterMap.mpr ⟨cfg, hmem, hsome⟩

def wecomRowW : PushConfigRow :=
  { channel := "wecom", enabled := true,
    conf := { webhook := "https://wc.example" }, events := ["sms"] }

def feishuRowW : PushConfigRow :=
  { channel := "feishu", enabled := true,
    conf := { webhook := "https://fs.example" }, events := ["sms"] }

def configsW : List PushConfigRow := [wecomRowW, feishuRowW]

/-- A world where the WeCom webhook call raises and every other call
succeeds. -/
def envBadW : String → FetchOutcome := fun ch => if ch = "wecom" then .throws else .respond 0

def envGoodW : String → FetchOutcome := fun _ => .respond 0

def smsPushW : PushCall := { eventType := "sms" }

/-- C7 witness: with two enabled subscribed channels and the WeCom delivery
raising, Feishu's dispatch equals its all-good-world dispatch, Feishu's
delivery completes, and WeCom's failure is settled as logged — not raised. -/
theorem c7_dispatch_isolation_witness :
    (dispatchOne envBadW "sms" smsPushW feishuRowW =
      dispatchOne envGoodW "sms" smsPushW feishuRowW) ∧
    (Settled.fulfilled "feishu" .delivered ∈ pushEmb envBadW configsW "sms" smsPushW) ∧
    (Settled.fulfilled "wecom" .errorLogged ∈ pushEmb envBadW configsW "sms" smsPushW) :=
  ⟨c7_dispatch_isolation.2.1 "sms" smsPushW feishuRowW envBadW envGoodW rfl,
   c7_dispatch_isolation.2.2 envBadW configsW "sms" smsPushW feishuRowW (by decide) _ rfl,
   c7_dispatch_isolation.2.2 envBadW configsW "sms" smsPushW wecomRowW (by decide) _ rfl⟩

/-! ### C5: decryption error handling -/

lemma strLen_pos (s : String) (h : s ≠ "") : 0 < s.length := by
  cases s with
  | mk l =>
    cases l with
    | nil => exact absurd rfl h
    | cons a t => simp [String.length]

/-- C5: with encryption enabled and well-formed key/IV, (i) whole-payload mode
(truthy string field `p`) turns a decrypt failure into a hard
`DecryptionError` aborting the request; (ii) in per-field mode the call
succeeds, a non-empty string field whose decrypt fails is kept at its raw
value, and a field decrypting to an all-digit string is coerced to an
integer. -/
theorem c5_decrypt_error_handling (codec : Codec) (cfg : AesConfig) (key iv : List Nat)
    (henabled : cfg.enabled = true)
    (hkey : parseKeyOrIv codec cfg.key = .ok key)
    (hiv : parseKeyOrIv codec cfg.iv = .ok iv) :
    (∀ (data : JsObject) (p : String), lookupP data = some p →
       aesDecrypt codec p key iv = none →
       decryptData codec data (some cfg) = .error (.decryptionError p)) ∧
    (∀ data : JsObject, lookupP data = none →
       decryptData codec data (some cfg) =
         .ok (.fields (data.map (fun kv => (kv.1, decryptField codec key iv kv.2)))) ∧
       (∀ k s, (k, JsVal.vstr s) ∈ data → s ≠ "" → aesDecrypt codec s key iv = none →
          (k, JsVal.vstr s) ∈
            data.map (fun kv => (kv.1, decryptField codec key iv kv.2))) ∧
       (∀ k s dstr, (k, JsVal.vstr s) ∈ data → s ≠ "" →
          aesDecrypt codec s key iv = some dstr → isAllDigits dstr = true →
          (k, JsVal.vnum (Int.ofNat (digitsToNat dstr))) ∈
            data.map (fun kv => (kv.1, decryptField codec key iv kv.2)))) := by
  have hen : (cfg.enabled = false) = False := by simp [henabled]
  constructor
  · intro data p hp haes
    simp only [decryptData, hen, if_false, hkey, hiv, hp, haes]
  · intro data hp
    refine ⟨by simp only [decryptData, hen, if_false, hkey, hiv, hp], ?_, ?_⟩
    · intro k s hmem hs haes
      have hf : decryptField codec key iv (.vstr s) = .vstr s := by
        simp only [decryptField]
        rw [if_pos (strLen_pos s hs), haes]
      have := List.mem_map_of_mem (fun kv => (kv.1, decryptField codec key iv kv.2)) hmem
      simpa [hf] using this
    · intro k s dstr hmem hs haes hdig
      have hf : decryptField codec key iv (.vstr s) =
          .vnum (Int.ofNat (digitsToNat dstr)) := by
        simp only [decryptField]
        rw [if_pos (strLen_pos s hs), haes]
        simp [hdig]
      have := List.mem_map_of_mem (fun kv => (kv.1, decryptField codec key iv kv.2)) hmem
      simpa [hf] using this

/-- A codec over the byte-is-code-point toy text encoding whose cipher rejects
everything (every decrypt fails). -/
def codecFailW : Codec :=
  { utf8Enc := fun s => s.toList.map Char.toNat,
    utf8Dec := fun bs => String.mk (bs.map Char.ofNat),
    jsonStringify := fun _ => "",
    jsonParse := fun _ => none,
    cipherEnc := fun _ _ m => m,
    cipherDec := fun _ _ _ => none }

/-- Same toy codec with the identity cipher (every decrypt succeeds). -/
def codecIdW : Codec :=
  { codecFailW with cipherDec := fun _ _ c => some c }

def cfgAesW : AesConfig := { enabled := true, key := "1234567890123456", iv := "1234567890123456" }

/-- C5 witness: a failing whole-payload decrypt errors out; a failing
per-field decrypt keeps the raw value and succeeds; an all-digit per-field
plaintext is coerced to an integer. -/
theorem c5_decrypt_error_handling_witness :
    (decryptData codecFailW [("p", JsVal.vstr "QQ")] (some cfgAesW) =
      .error (.decryptionError "QQ")) ∧
    (decryptData codecFailW [("a", JsVal.vstr "xyz")] (some cfgAesW) =
      .ok (.fields [("a", JsVal.vstr "xyz")])) ∧
    (("n", JsVal.vnum 123) ∈
      [("n", JsVal.vstr "MTIz")].map
        (fun kv => (kv.1, decryptField codecIdW
          (codecIdW.utf8Enc cfgAesW.key) (codecIdW.utf8Enc cfgAesW.iv) kv.2))) := by
  have hfail := c5_decrypt_error_handling codecFailW cfgAesW
    (codecFailW.utf8Enc cfgAesW.key) (codecFailW.utf8Enc cfgAesW.iv) rfl rfl rfl
  have hid := c5_decrypt_error_handling codecIdW cfgAesW
    (codecIdW.utf8Enc cfgAesW.key) (codecIdW.utf8Enc cfgAesW.iv) rfl rfl rfl
  refine ⟨hfail.1 [("p", JsVal.vstr "QQ")] "QQ" rfl rfl, ?_, ?_⟩
  · exact ((hfail.2 [("a", JsVal.vstr "xyz")] rfl).1).trans (by rfl)
  · have h := (hid.2 [("n", JsVal.vstr "MTIz")] rfl).2.2 "n" "MTIz" "123"
      (by simp) (by decide) (by decide) (by decide)
    simpa using h
/-! ### C6: Base64 round-trip machinery -/

lemma charToSix_sixToChar : ∀ n : Fin 64, charToSix (sixToChar n.1) = some n.1 := by decide

lemma sixToChar_ne_pad : ∀ n : Fin 64, sixToChar n.1 ≠ '=' := by decide

lemma unurl_url_sixToChar : ∀ n : Fin 64,
    b64UnUrlChar (urlSafeChar (sixToChar n.1)) = sixToChar n.1 := by decide

theorem b64Encode_len_mod4 : ∀ bs : List Nat, (b64EncodeCore bs).length % 4 = 0
  | [] => rfl
  | [_] => by simp [b64EncodeCore]
  | [_, _] => by simp [b64EncodeCore]
  | _ :: _ :: _ :: rest => by
    have ih := b64Encode_len_mod4 rest
    simp only [b64EncodeCore, List.length_cons]
    omega

theorem b64Encode_chars_bounded : ∀ bs : List Nat, (∀ b ∈ bs, b < 256) →
    ∀ c ∈ b64EncodeCore bs, (∃ n : Fin 64, c = sixToChar n.1) ∨ c = '='
  | [], _, c, hc => by cases hc
  | [b1], h, c, hc => by
    have hb1 : b1 < 256 := h b1 (by simp)
    rcases hc with _ | ⟨_, _ | ⟨_, _ | ⟨_, hc⟩⟩⟩
    · exact Or.inl ⟨⟨b1 / 4, by omega⟩, rfl⟩
    · exact Or.inl ⟨⟨b1 % 4 * 16, by omega⟩, rfl⟩
    · exact Or.inr rfl
    · rcases hc with _ | ⟨_, hc⟩
      · exact Or.inr rfl
      · cases hc
  | [b1, b2], h, c, hc => by
    have hb1 : b1 < 256 := h b1 (by simp)
    have hb2 : b2 < 256 := h b2 (by simp)
    rcases hc with _ | ⟨_, _ | ⟨_, _ | ⟨_, hc⟩⟩⟩
    · exact Or.inl ⟨⟨b1 / 4, by omega⟩, rfl⟩
    · exact Or.inl ⟨⟨b1 % 4 * 16 + b2 / 16, by omega⟩, rfl⟩
    · exact Or.inl ⟨⟨b2 % 16 * 4, by omega⟩, rfl⟩
    · rcases hc with _ | ⟨_, hc⟩
      · exact Or.inr rfl
      · cases hc
  | b1 :: b2 :: b3 :: rest, h, c, hc => by
    have hb1 : b1 < 256 := h b1 (by simp)
    have hb2 : b2 < 256 := h b2 (by simp)
    have hb3 : b3 < 256 := h b3 (by simp)
    have hrest : ∀ b ∈ rest, b < 256 := fun b hb =>
      h b (List.mem_cons_of_mem _ (List.mem_cons_of_mem _ (List.mem_cons_of_mem _ hb)))
    rcases hc with _ | ⟨_, _ | ⟨_, _ | ⟨_, _ | ⟨_, hc⟩⟩⟩⟩
    · exact Or.inl ⟨⟨b1 / 4, by omega⟩, rfl⟩
    · exact Or.inl ⟨⟨b1 % 4 * 16 + b2 / 16, by omega⟩, rfl⟩
    · exact Or.inl ⟨⟨b2 % 16 * 4 + b3 / 64, by omega⟩, rfl⟩
    · exact Or.inl ⟨⟨b3 % 64, by omega⟩, rfl⟩
    · exact b64Encode_chars_bounded rest hrest c hc

theorem b64_roundtrip : ∀ bs : List Nat, (∀ b ∈ bs, b < 256) →
    b64DecodeCore (b64EncodeCore bs) = some bs
  | [], _ => rfl
  | [b1], h => by
    have hb1 : b1 < 256 := h b1 (by simp)
    have h1 := charToSix_sixToChar ⟨b1 / 4, by omega⟩
    have h2 := charToSix_sixToChar ⟨b1 % 4 * 16, by omega⟩
    simp only [b64EncodeCore, b64DecodeCore]
    rw [if_pos ⟨trivial, trivial, trivial⟩, h1, h2]
    show some [b1 / 4 * 4 + b1 % 4 * 16 / 16] = some [b1]
    have heq : b1 / 4 * 4 + b1 % 4 * 16 / 16 = b1 := by omega
    rw [heq]
  | [b1, b2], h => by
    have hb1 : b1 < 256 := h b1 (by simp)
    have hb2 : b2 < 256 := h b2 (by simp)
    have h1 := charToSix_sixToChar ⟨b1 / 4, by omega⟩
    have h2 := charToSix_sixToChar ⟨b1 % 4 * 16 + b2 / 16, by omega⟩
    have h3 := charToSix_sixToChar ⟨b2 % 16 * 4, by omega⟩
    simp only [b64EncodeCore, b64DecodeCore]
    rw [if_neg (fun hcon => sixToChar_ne_pad ⟨b2 % 16 * 4, by omega⟩ hcon.2.1),
        if_pos ⟨trivial, trivial⟩, h1, h2, h3]
    show some [b1 / 4 * 4 + (b1 % 4 * 16 + b2 / 16) / 16,
               (b1 % 4 * 16 + b2 / 16) % 16 * 16 + b2 % 16 * 4 / 4] = some [b1, b2]
    have he1 : b1 / 4 * 4 + (b1 % 4 * 16 + b2 / 16) / 16 = b1 := by omega
    have he2 : (b1 % 4 * 16 + b2 / 16) % 16 * 16 + b2 % 16 * 4 / 4 = b2 := by omega
    rw [he1, he2]
  | b1 :: b2 :: b3 :: rest, h => by
    have hb1 : b1 < 256 := h b1 (by simp)
    have hb2 : b2 < 256 := h b2 (by simp)
    have hb3 : b3 < 256 := h b3 (by simp)
    have hrest : ∀ b ∈ rest, b < 256 := fun b hb =>
      h b (List.mem_cons_of_mem _ (List.mem_cons_of_mem _ (List.mem_cons_of_mem _ hb)))
    have ih := b64_roundtrip rest hrest
    have h1 := charToSix_sixToChar ⟨b1 / 4, by omega⟩
    have h2 := charToSix_sixToChar ⟨b1 % 4 * 16 + b2 / 16, by omega⟩
    have h3 := charToSix_sixToChar ⟨b2 % 16 * 4 + b3 / 64, by omega⟩
    have h4 := charToSix_sixToChar ⟨b3 % 64, by omega⟩
    simp only [b64EncodeCore, b64DecodeCore]
    rw [if_neg (fun hcon => sixToChar_ne_pad ⟨b2 % 16 * 4 + b3 / 64, by omega⟩ hcon.2.1),
        if_neg (fun hcon => sixToChar_ne_pad ⟨b3 % 64, by omega⟩ hcon.2),
        h1, h2, h3, h4, ih]
    show some ([b1 / 4 * 4 + (b1 % 4 * 16 + b2 / 16) / 16,
                (b1 % 4 * 16 + b2 / 16) % 16 * 16 + (b2 % 16 * 4 + b3 / 64) / 4,
                (b2 % 16 * 4 + b3 / 64) % 4 * 64 + b3 % 64] ++ rest) =
      some (b1 :: b2 :: b3 :: rest)
    have he1 : b1 / 4 * 4 + (b1 % 4 * 16 + b2 / 16) / 16 = b1 := by omega
    have he2 : (b1 % 4 * 16 + b2 / 16) % 16 * 16 + (b2 % 16 * 4 + b3 / 64) / 4 = b2 := by omega
    have he3 : (b2 % 16 * 4 + b3 / 64) % 4 * 64 + b3 % 64 = b3 := by omega
    rw [he1, he2, he3]
    rfl

lemma b64Normalize_urlSafe (bs : List Nat) (hb : ∀ b ∈ bs, b < 256) :
    b64Normalize (urlSafeB64Encode bs) = String.mk (b64EncodeCore bs) := by
  unfold b64Normalize urlSafeB64Encode
  have htl : (String.mk ((b64EncodeCore bs).map urlSafeChar)).toList =
      (b64EncodeCore bs).map urlSafeChar := rfl
  rw [htl, List.map_map]
  have hid : ∀ c ∈ b64EncodeCore bs, (b64UnUrlChar ∘ urlSafeChar) c = c := by
    intro c hc
    rcases b64Encode_chars_bounded bs hb c hc with ⟨n, rfl⟩ | rfl
    · exact unurl_url_sixToChar n
    · rfl
  rw [List.map_congr_left hid]
  simp [List.map_id', b64Encode_len_mod4 bs]
lemma b64Encode_ne_nil : ∀ bs : List Nat, bs ≠ [] → b64EncodeCore bs ≠ []
  | [], h, _ => absurd rfl h
  | [_], _, hc => by simp [b64EncodeCore] at hc
  | [_, _], _, hc => by simp [b64EncodeCore] at hc
  | _ :: _ :: _ :: _, _, hc => by simp [b64EncodeCore] at hc

lemma urlSafeB64Encode_ne_empty (bs : List Nat) (h : bs ≠ []) :
    urlSafeB64Encode bs ≠ "" := by
  rw [urlSafeB64Encode]
  intro hcontra
  have hl : (b64EncodeCore bs).map urlSafeChar = [] := congrArg String.toList hcontra
  exact b64Encode_ne_nil bs h (List.map_eq_nil_iff.mp hl)

/-- Decoding the URL-safe-Base64 transport of a ciphertext recovers exactly
the ciphertext and hands it to the cipher. -/
lemma aesDecrypt_urlSafe_roundtrip (codec : Codec) (key iv : List Nat)
    (cipher plain : List Nat) (hb : ∀ b ∈ cipher, b < 256)
    (hdec : codec.cipherDec key iv cipher = some plain) :
    aesDecrypt codec (urlSafeB64Encode cipher) key iv = some (codec.utf8Dec plain) := by
  have hdecode : b64DecodeCore (String.mk (b64EncodeCore cipher)).toList = some cipher := by
    rw [show (String.mk (b64EncodeCore cipher)).toList = b64EncodeCore cipher from rfl]
    exact b64_roundtrip cipher hb
  unfold aesDecrypt
  rw [b64Normalize_urlSafe cipher hb]
  simp only [hdecode, hdec]

/-- C6: round-trip through the Transport Decoder.  For every JSON object `j`:
encrypting its serialization (modeled by the abstract cipher/JSON/UTF-8
contracts in the hypotheses, which Node's AES-128-CBC/PKCS#7, `JSON` and
`Buffer` satisfy), URL-safe-Base64-encoding the ciphertext into field `p`, and
decoding through `decryptData` with decryption enabled yields exactly `j`. -/
theorem c6_transport_roundtrip (codec : Codec) (j : JsObject) (cfg : AesConfig)
    (key iv : List Nat)
    (henabled : cfg.enabled = true)
    (hkey : parseKeyOrIv codec cfg.key = .ok key)
    (hiv : parseKeyOrIv codec cfg.iv = .ok iv)
    (hbytes : ∀ b ∈ codec.cipherEnc key iv (codec.utf8Enc (codec.jsonStringify j)), b < 256)
    (hnn : codec.cipherEnc key iv (codec.utf8Enc (codec.jsonStringify j)) ≠ [])
    (hdec : codec.cipherDec key iv
        (codec.cipherEnc key iv (codec.utf8Enc (codec.jsonStringify j))) =
      some (codec.utf8Enc (codec.jsonStringify j)))
    (hutf : codec.utf8Dec (codec.utf8Enc (codec.jsonStringify j)) = codec.jsonStringify j)
    (hjson : codec.jsonParse (codec.jsonStringify j) = some j) :
    decryptData codec
      [("p", JsVal.vstr (urlSafeB64Encode
        (codec.cipherEnc key iv (codec.utf8Enc (codec.jsonStringify j)))))]
      (some cfg) = .ok (.whole j) := by
  have hen : (cfg.enabled = false) = False := by simp [henabled]
  have hlook : lookupP [("p", JsVal.vstr (urlSafeB64Encode
      (codec.cipherEnc key iv (codec.utf8Enc (codec.jsonStringify j)))))] =
      some (urlSafeB64Encode
        (codec.cipherEnc key iv (codec.utf8Enc (codec.jsonStringify j)))) := by
    simp [lookupP, urlSafeB64Encode_ne_empty _ hnn]
  have haes := aesDecrypt_urlSafe_roundtrip codec key iv
    (codec.cipherEnc key iv (codec.utf8Enc (codec.jsonStringify j)))
    (codec.utf8Enc (codec.jsonStringify j)) hbytes hdec
  simp only [decryptData, hen, if_false, hkey, hiv, hlook, haes, hutf, hjson]

def jW : JsObject := [("x", JsVal.vnum 7)]

/-- A toy instantiation of the external primitives satisfying the round-trip
contracts at the witness point: code-point text codec, a constant JSON
serializer with matching parser, and a cipher appending two bytes. -/
def codecRtW : Codec :=
  { utf8Enc := fun s => s.toList.map Char.toNat,
    utf8Dec := fun bs => String.mk (bs.map Char.ofNat),
    jsonStringify := fun _ => "ab",
    jsonParse := fun s => if s = "ab" then some jW else none,
    cipherEnc := fun _ _ m => m ++ [200, 10],
    cipherDec := fun _ _ c => some c.dropLast.dropLast }

/-- C6 witness: the round-trip theorem evaluated at the toy codec and the
concrete object `jW`. -/
theorem c6_transport_roundtrip_witness :
    decryptData codecRtW
      [("p", JsVal.vstr (urlSafeB64Encode
        (codecRtW.cipherEnc (codecRtW.utf8Enc cfgAesW.key) (codecRtW.utf8Enc cfgAesW.iv)
          (codecRtW.utf8Enc (codecRtW.jsonStringify jW)))))]
      (some cfgAesW) = .ok (.whole jW) :=
  c6_transport_roundtrip codecRtW jW cfgAesW
    (codecRtW.utf8Enc cfgAesW.key) (codecRtW.utf8Enc cfgAesW.iv)
    rfl rfl rfl (by decide) (by decide) (by decide) (by decide) (by decide)

end SmsWeb
